import Mathlib

/-!
Rideau Canal dashboard: the refresh controller of `public/app.js`.

A shallow embedding of the front-end script and the properties of its
location-key resolver, card renderer, refresh cycle and chart builder.

Modelling choices
* A JavaScript string is a Lean `String`.  The program compares, lower-cases and
  filters strings only against ASCII patterns, for which UTF-16 code units and
  Unicode scalar values give the same answers.
* Values parsed from a response body are `JSVal`s; numbers are kept abstract
  (type parameter `ν`), everything the script does with a number goes through
  the `Host`.
* What the browser supplies (`String.prototype.toLowerCase`, number and time
  formatting, the page origin) is a `Host`; results are stated for every host.
* A function that can throw, or an `async` function that can reject, is a
  state transformer returning `Except Fault α` together with the world reached,
  so the effects performed before a throw are kept.
* Every request settles (it is rejected or answered), one cycle runs without
  another cycle interleaving, and `new Chart` succeeds on an existing canvas.
  Timers are recorded as the callback and period handed to `setInterval`.
-/

namespace RideauCanal

/-! ## Strings -/

/-- `String.prototype.includes`: `pat` occurs in `s` as a contiguous block. -/
def includes (s pat : String) : Bool :=
  s.data.tails.any fun t => pat.data.isPrefixOf t

/-- The character class `[a-z]`. -/
def isLowerAZ (c : Char) : Bool :=
  decide ('a' ≤ c) && decide (c ≤ 'z')

/-- `s.replace(/[^a-z]/g, '')`: delete every character outside `a`..`z`. -/
def stripNonLower (s : String) : String :=
  String.mk (s.data.filter isLowerAZ)

/-- Every character is in the ASCII range. -/
def isAscii (s : String) : Bool :=
  s.data.all fun c => decide (c.toNat < 128)

/-- Lower-casing restricted to `A`..`Z`; what `toLowerCase` does on ASCII text. -/
def asciiLowerCase (s : String) : String :=
  String.mk (s.data.map Char.toLower)

/-! ## Values parsed from response bodies -/

/-- A JavaScript value as `response.json()` can produce it, plus `undefined`
(the result of reading an absent property). -/
inductive JSVal (ν : Type) where
  | undefined : JSVal ν
  | null : JSVal ν
  | bool (b : Bool) : JSVal ν
  | num (n : ν) : JSVal ν
  | str (s : String) : JSVal ν
  | arr (xs : List (JSVal ν)) : JSVal ν
  | obj (fields : List (String × JSVal ν)) : JSVal ν

/-- What a throw or a rejected promise carries.  The handlers of the script only
log the error, so its kind is all that is kept. -/
inductive Fault where
  | typeError : Fault
  | networkError : Fault
  | syntaxError : Fault
  deriving DecidableEq, Repr

deriving instance DecidableEq for Except

/-- The environment the script runs in. -/
structure Host (ν : Type) where
  /-- The value of `window.location.origin`. -/
  origin : String
  /-- The method `String.prototype.toLowerCase`. -/
  toLowerCase : String → String
  /-- On ASCII text, `toLowerCase` changes `A`..`Z` only. -/
  toLowerCase_ascii : ∀ s, isAscii s = true → toLowerCase s = asciiLowerCase s
  /-- Truthiness of a number (false for `0`). -/
  numTruthy : ν → Bool
  /-- The call `n.toFixed(1)`. -/
  toFixed1 : ν → String
  /-- What `el.textContent = v` stores for a value `v` that is not a string. -/
  textContentOf : JSVal ν → String
  /-- What a template literal substitutes for a value that is not a string. -/
  templateOf : JSVal ν → String
  /-- The call `new Date().toLocaleTimeString('en-CA', ...)` of `updateLastUpdateTime`. -/
  clock : String
  /-- The call `new Date(v).toLocaleTimeString('en-CA', ...)` of `updateCharts`. -/
  formatEventTime : JSVal ν → String

variable {ν : Type}

/-- JavaScript truthiness (`ToBoolean`). -/
def truthy (H : Host ν) : JSVal ν → Bool
  | .undefined => false
  | .null => false
  | .bool b => b
  | .num n => H.numTruthy n
  | .str s => s != ""
  | .arr _ => true
  | .obj _ => true

/-- The call `v.toLowerCase()`: defined on strings; on any other value parsed
from JSON the method is missing (or not callable) and the call throws. -/
def callToLowerCase (H : Host ν) : JSVal ν → Except Fault String
  | .str s => .ok (H.toLowerCase s)
  | _ => .error .typeError

/-- Source: `getLocationKey(location)`, lines 241-252. -/
def getLocationKey (H : Host ν) (location : JSVal ν) : Except Fault String :=
  if !truthy H location then .ok ""
  else
    match callToLowerCase H location with
    | .error e => .error e
    | .ok loc =>
      if includes loc "dow" then .ok "dows"
      else if includes loc "fifth" then .ok "fifth"
      else if includes loc "nac" then .ok "nac"
      else .ok (stripNonLower loc)

/-! ## The page, the charts and the trace of effects -/

/-- The children of an element after its last write: `textContent = s` leaves a
single text node, `innerHTML = s` the parsed markup. -/
inductive Content where
  | text (s : String) : Content
  | html (s : String) : Content
  deriving DecidableEq, Repr

/-- An element of the page, as far as the script writes to it. -/
structure Element where
  className : String
  content : Content
  deriving DecidableEq, Repr

/-- A function handed to `setInterval`. -/
inductive Callback where
  | updateDashboard : Callback
  deriving DecidableEq, Repr

/-- One observable effect. `clearInterval` stands for a call that would stop a
timer; no function of the script emits it. -/
inductive Event where
  | fetch (url : String) : Event
  | consoleLog (msg : String) : Event
  | consoleError (msg : String) : Event
  | showErrorCalled (message : String) : Event
  | setTextContent (id text : String) : Event
  | setClassName (id cls : String) : Event
  | setInnerHTML (id html : String) : Event
  | chartCreated (canvas : String) : Event
  | chartRedrawn (canvas : String) : Event
  | setInterval (callback : Callback) (ms : Nat) : Event
  | clearInterval : Event
  deriving DecidableEq, Repr

/-- One entry of `chart.data.datasets`. `tension` is the literal `0.4`. -/
structure Dataset (ν : Type) where
  label : String
  data : List (JSVal ν)
  borderColor : String
  backgroundColor : String
  tension : ℚ
  fill : Bool

/-- The fixed presentation options given to `new Chart`. -/
structure ChartOptions where
  type : String
  responsive : Bool
  maintainAspectRatio : Bool
  legendPosition : String
  titleDisplay : Bool
  yBeginAtZero : Option Bool
  yTitleDisplay : Bool
  yTitleText : String
  deriving DecidableEq, Repr

/-- A `Chart` object. `ident` tells objects apart (the number of charts
constructed before it). -/
structure Chart (ν : Type) where
  ident : Nat
  canvas : String
  labels : List String
  datasets : List (Dataset ν)
  options : ChartOptions

/-- The state the script reads and writes: the page, the two module-level chart
variables, and the effects performed so far. -/
structure World (ν : Type) where
  dom : String → Option Element
  iceChart : Option (Chart ν)
  tempChart : Option (Chart ν)
  chartsConstructed : Nat
  trace : List Event

/-- How one `fetch` settles: the promise rejects, or a response arrives whose
body `json()` parses (`some v`) or fails to parse (`none`). -/
inductive FetchResult (ν : Type) where
  | rejected : FetchResult ν
  | response (body : Option (JSVal ν)) : FetchResult ν

/-- The network during one cycle: how the request to each URL settles. -/
abbrev Network (ν : Type) := String → FetchResult ν

/-- A computation that may throw (or, for an `async` function, reject); the
world reached is returned in both cases. -/
def JS (ν : Type) (α : Type) : Type := World ν → Except Fault α × World ν

/-- Normal completion. -/
def JS.pure {α : Type} (a : α) : JS ν α := fun w => (.ok a, w)

/-- Sequencing: a throw in `m` skips `f`. -/
def JS.bind {α β : Type} (m : JS ν α) (f : α → JS ν β) : JS ν β := fun w =>
  match m w with
  | (.ok a, w1) => f a w1
  | (.error e, w1) => (.error e, w1)

instance : Monad (JS ν) where
  pure := JS.pure
  bind := JS.bind

/-- The statement `try { body } catch (error) { handler }`. -/
def tryCatch {α : Type} (body : JS ν α) (handler : Fault → JS ν α) : JS ν α := fun w =>
  match body w with
  | (.ok a, w1) => (.ok a, w1)
  | (.error e, w1) => handler e w1

/-- An effect-free expression that may throw. -/
def liftE {α : Type} (x : Except Fault α) : JS ν α := fun w => (x, w)

/-- Record an effect. -/
def emit (e : Event) : JS ν Unit := fun w =>
  (.ok (), { w with trace := w.trace ++ [e] })

/-- Overwrite one element of the page. -/
def World.setElement (w : World ν) (id : String) (el : Element) : World ν :=
  { w with dom := fun i => if i = id then some el else w.dom i }

/-- The call `array.forEach(callback)` on a list of elements. -/
def forEach {α : Type} : List α → (α → JS ν Unit) → JS ν Unit
  | [], _ => pure ()
  | x :: xs, f => do f x; forEach xs f

/-! ## Primitive operations -/

/-- Reading `v.k` for one of the property names the script reads (`success`,
`data`, `location`, the measurement names, `safety_status`, `overallStatus`,
`event_time`): throws on `null` and `undefined`, yields the member of an
object, and `undefined` on every other value. -/
def getProp (v : JSVal ν) (k : String) : Except Fault (JSVal ν) :=
  match v with
  | .undefined => .error .typeError
  | .null => .error .typeError
  | .obj fields => .ok ((fields.lookup k).getD .undefined)
  | _ => .ok .undefined

/-- The call `v.toFixed(1)`: defined on numbers only. -/
def callToFixed1 (H : Host ν) : JSVal ν → Except Fault String
  | .num n => .ok (H.toFixed1 n)
  | _ => .error .typeError

/-- The elements of `v` when `v` is an array, the only values on which
`forEach` and `map` are callable. -/
def asArray : JSVal ν → Except Fault (List (JSVal ν))
  | .arr xs => .ok xs
  | _ => .error .typeError

/-- A value in a template literal or as right-hand side of a string property. -/
def templateText (H : Host ν) : JSVal ν → String
  | .str s => s
  | v => H.templateOf v

/-- The text stored by `el.textContent = v`. -/
def textContentText (H : Host ν) : JSVal ν → String
  | .str s => s
  | v => H.textContentOf v

/-- `console.log(msg)`. -/
def consoleLog (msg : String) : JS ν Unit := emit (.consoleLog msg)

/-- `console.error(msg, ...)`. -/
def consoleError (msg : String) : JS ν Unit := emit (.consoleError msg)

/-- `document.getElementById(id)`: the element (known by its id) or `null`. -/
def getElementById (id : String) : JS ν (Option String) := fun w =>
  (.ok ((w.dom id).map fun _ => id), w)

/-- The assignment `el.textContent = text`; throws when `el` is `null`. -/
def setTextContent (el : Option String) (text : String) : JS ν Unit := fun w =>
  match el with
  | none => (.error .typeError, w)
  | some id =>
    match w.dom id with
    | none => (.error .typeError, w)
    | some e =>
      (.ok (), { w.setElement id { e with content := .text text } with
                 trace := w.trace ++ [.setTextContent id text] })

/-- The assignment `el.className = cls`; throws when `el` is `null`. -/
def setClassName (el : Option String) (cls : String) : JS ν Unit := fun w =>
  match el with
  | none => (.error .typeError, w)
  | some id =>
    match w.dom id with
    | none => (.error .typeError, w)
    | some e =>
      (.ok (), { w.setElement id { e with className := cls } with
                 trace := w.trace ++ [.setClassName id cls] })

/-- The assignment `el.innerHTML = html`; throws when `el` is `null`. -/
def setInnerHTML (el : Option String) (html : String) : JS ν Unit := fun w =>
  match el with
  | none => (.error .typeError, w)
  | some id =>
    match w.dom id with
    | none => (.error .typeError, w)
    | some e =>
      (.ok (), { w.setElement id { e with content := .html html } with
                 trace := w.trace ++ [.setInnerHTML id html] })

/-- `await fetch(url)`: the request is issued, then the promise settles. -/
def fetch (net : Network ν) (url : String) : JS ν (Option (JSVal ν)) := fun w =>
  let w1 := { w with trace := w.trace ++ [.fetch url] }
  match net url with
  | .rejected => (.error .networkError, w1)
  | .response body => (.ok body, w1)

/-- `await response.json()`. -/
def json (response : Option (JSVal ν)) : Except Fault (JSVal ν) :=
  match response with
  | none => .error .syntaxError
  | some v => .ok v

/-! ## The script -/

/-- Source: `displayNames`, lines 2-6. -/
def displayNames : List (String × String) :=
  [("dowslake", "Dow's Lake"), ("fifthave", "Fifth Avenue"), ("nac", "NAC")]

/-- Source: `REFRESH_INTERVAL`, line 15. -/
def REFRESH_INTERVAL : Nat := 30000

/-- Source: `showError(message)`, lines 258-260. -/
def showError (message : String) : JS ν Unit := do
  emit (.showErrorCalled message)
  consoleError message

/-- The arrow function given to `forEach` in `updateLocationCards`, lines 71-86. -/
def locationCard (H : Host ν) (location : JSVal ν) : JS ν Unit := do
  let name ← liftE (getProp location "location")
  let locationKey ← liftE (getLocationKey H name)
  -- Update metrics
  let iceEl ← getElementById ("ice-" ++ locationKey)
  let ice ← liftE (getProp location "avg_ice_thickness" >>= callToFixed1 H)
  setTextContent iceEl ice
  let tempEl ← getElementById ("temp-" ++ locationKey)
  let temp ← liftE (getProp location "avg_surface_temperature" >>= callToFixed1 H)
  setTextContent tempEl temp
  let snowEl ← getElementById ("snow-" ++ locationKey)
  let snow ← liftE (getProp location "max_snow_accumulation" >>= callToFixed1 H)
  setTextContent snowEl snow
  -- Update safety status
  let statusBadge ← getElementById ("status-" ++ locationKey)
  let safetyStatus ← liftE (getProp location "safety_status")
  setTextContent statusBadge (textContentText H safetyStatus)
  let lower ← liftE (callToLowerCase H safetyStatus)
  setClassName statusBadge ("safety-badge " ++ lower)

/-- Source: `updateLocationCards(locations)`, lines 70-87. -/
def updateLocationCards (H : Host ν) (locations : JSVal ν) : JS ν Unit := do
  let items ← liftE (asArray locations)
  forEach items (locationCard H)

/-- Source: `updateOverallStatus(status)`, lines 92-96. -/
def updateOverallStatus (H : Host ν) (status : JSVal ν) : JS ν Unit := do
  let statusBadge ← getElementById "overallStatus"
  let lower ← liftE (callToLowerCase H status)
  setClassName statusBadge ("status-badge " ++ lower)
  setInnerHTML statusBadge
    ("<span class=\"status-text\">Canal Status: " ++ templateText H status ++ "</span>")

/-- Source: `updateLastUpdateTime()`, lines 101-109. -/
def updateLastUpdateTime (H : Host ν) : JS ν Unit := do
  let timeString := H.clock
  let el ← getElementById "lastUpdate"
  setTextContent el timeString

/-- `array.map(f)` for a callback that may throw: the first throw ends the call. -/
def mapE {α β : Type} (f : α → Except Fault β) : List α → Except Fault (List β)
  | [] => .ok []
  | x :: xs =>
    match f x with
    | .error e => .error e
    | .ok y =>
      match mapE f xs with
      | .error e => .error e
      | .ok ys => .ok (y :: ys)

/-- Source: `locations` of `updateCharts`, line 116. -/
def locations : List String := ["dowslake", "fifthave", "nac"]

/-- Source: `colors` of `updateCharts`, lines 117-121. -/
def colors : List (String × String) :=
  [("dowslake", "rgb(75, 192, 192)"), ("fifthave", "rgb(255, 99, 132)"),
   ("nac", "rgb(54, 162, 235)")]

/-- The URL of a history request, line 126. -/
def historyUrl (H : Host ν) (location : String) : String :=
  H.origin ++ "/api/history/" ++ location ++ "?limit=12"

/-- The arrow function mapped over `locations` (lines 125-130) from its first
`await` on: the response is awaited and parsed, and its `data` member paired
with the location. -/
def historyEntry (H : Host ν) (net : Network ν) (location : String) :
    Except Fault (String × JSVal ν) :=
  match net (historyUrl H location) with
  | .rejected => .error .networkError
  | .response body => do
    let data ← json body
    let d ← getProp data "data"
    pure (location, d)

/-- Source: `await Promise.all(locations.map(async ...))`, lines 124-131. The
three requests are issued, in order, before any response is awaited; the join
rejects as soon as one of the three promises rejects. -/
def historicalData (H : Host ν) (net : Network ν) : JS ν (List (String × JSVal ν)) := do
  forEach locations (fun location => emit (.fetch (historyUrl H location)))
  liftE (mapE (historyEntry H net) locations)

/-- One element of `iceDatasets` or `tempDatasets` (lines 134-141, 143-150), for
the measurement named `field`. -/
def dataset (field : String) (entry : String × JSVal ν) : Except Fault (Dataset ν) := do
  let points ← asArray entry.2
  let values ← mapE (fun d => getProp d field) points
  pure { label := (displayNames.lookup entry.1).getD entry.1
         data := values
         borderColor := (colors.lookup entry.1).getD "undefined"
         backgroundColor := (colors.lookup entry.1).getD "undefined" ++ "33"
         tension := 0.4
         fill := false }

/-- Source: `iceDatasets`, lines 134-141. -/
def iceDatasets (historicalData : List (String × JSVal ν)) : Except Fault (List (Dataset ν)) :=
  mapE (dataset "avg_ice_thickness") historicalData

/-- Source: `tempDatasets`, lines 143-150. -/
def tempDatasets (historicalData : List (String × JSVal ν)) : Except Fault (List (Dataset ν)) :=
  mapE (dataset "avg_surface_temperature") historicalData

/-- Source: `labels`, lines 153-158: the time labels of the first location. -/
def labels (H : Host ν) (historicalData : List (String × JSVal ν)) :
    Except Fault (List String) :=
  match historicalData with
  | [] => .error .typeError
  | entry :: _ => do
    let points ← asArray entry.2
    mapE (fun d => do
      let t ← getProp d "event_time"
      pure (H.formatEventTime t)) points

/-- The options of the ice thickness chart, lines 173-193. -/
def iceOptions : ChartOptions where
  type := "line"
  responsive := true
  maintainAspectRatio := true
  legendPosition := "top"
  titleDisplay := false
  yBeginAtZero := some false
  yTitleDisplay := true
  yTitleText := "Ice Thickness (cm)"

/-- The options of the temperature chart, lines 210-229. -/
def tempOptions : ChartOptions where
  type := "line"
  responsive := true
  maintainAspectRatio := true
  legendPosition := "top"
  titleDisplay := false
  yBeginAtZero := none
  yTitleDisplay := true
  yTitleText := "Surface Temperature (°C)"

/-- Update or create the ice thickness chart, lines 161-195. Creating it throws
when the canvas `iceThicknessChart` is missing from the page. -/
def refreshIceChart (labels : List String) (iceDatasets : List (Dataset ν)) : JS ν Unit :=
  fun w =>
  match w.iceChart with
  | some c =>
    (.ok (), { w with iceChart := some { c with labels := labels, datasets := iceDatasets }
                      trace := w.trace ++ [.chartRedrawn c.canvas] })
  | none =>
    match w.dom "iceThicknessChart" with
    | none => (.error .typeError, w)
    | some _ =>
      (.ok (), { w with iceChart := some { ident := w.chartsConstructed
                                           canvas := "iceThicknessChart"
                                           labels := labels
                                           datasets := iceDatasets
                                           options := iceOptions }
                        chartsConstructed := w.chartsConstructed + 1
                        trace := w.trace ++ [.chartCreated "iceThicknessChart"] })

/-- Update or create the temperature chart, lines 198-231. Creating it throws
when the canvas `temperatureChart` is missing from the page. -/
def refreshTempChart (labels : List String) (tempDatasets : List (Dataset ν)) : JS ν Unit :=
  fun w =>
  match w.tempChart with
  | some c =>
    (.ok (), { w with tempChart := some { c with labels := labels, datasets := tempDatasets }
                      trace := w.trace ++ [.chartRedrawn c.canvas] })
  | none =>
    match w.dom "temperatureChart" with
    | none => (.error .typeError, w)
    | some _ =>
      (.ok (), { w with tempChart := some { ident := w.chartsConstructed
                                            canvas := "temperatureChart"
                                            labels := labels
                                            datasets := tempDatasets
                                            options := tempOptions }
                        chartsConstructed := w.chartsConstructed + 1
                        trace := w.trace ++ [.chartCreated "temperatureChart"] })

/-- Source: `updateCharts()`, lines 114-236. -/
def updateCharts (H : Host ν) (net : Network ν) : JS ν Unit :=
  tryCatch
    (do
      -- Fetch historical data for all locations
      let historicalData ← historicalData H net
      -- Prepare chart data
      let iceDatasets ← liftE (iceDatasets historicalData)
      let tempDatasets ← liftE (tempDatasets historicalData)
      let labels ← liftE (labels H historicalData)
      refreshIceChart labels iceDatasets
      refreshTempChart labels tempDatasets)
    (fun _ => consoleError "Error updating charts:")

/-- The URL of the snapshot request, line 42. -/
def latestUrl (H : Host ν) : String := H.origin ++ "/api/latest"

/-- The URL of the status request, line 51. -/
def statusUrl (H : Host ν) : String := H.origin ++ "/api/status"

/-- The first block of `updateDashboard`, "Fetch latest data for all
locations", lines 41-48. -/
def fetchLatest (H : Host ν) (net : Network ν) : JS ν Unit := do
  let latestResponse ← fetch net (latestUrl H)
  let latestData ← liftE (json latestResponse)
  let success ← liftE (getProp latestData "success")
  if truthy H success then
    let data ← liftE (getProp latestData "data")
    updateLocationCards H data
    updateLastUpdateTime H

/-- The second block of `updateDashboard`, "Fetch status", lines 50-56. -/
def fetchStatus (H : Host ν) (net : Network ν) : JS ν Unit := do
  let statusResponse ← fetch net (statusUrl H)
  let statusData ← liftE (json statusResponse)
  let success ← liftE (getProp statusData "success")
  if truthy H success then
    let overallStatus ← liftE (getProp statusData "overallStatus")
    updateOverallStatus H overallStatus

/-- The `catch` block of `updateDashboard`, lines 61-64. -/
def dashboardCatch : JS ν Unit := do
  consoleError "Error updating dashboard:"
  showError "Failed to fetch latest data. Retrying..."

/-- Source: `updateDashboard()`, lines 39-65. -/
def updateDashboard (H : Host ν) (net : Network ν) : JS ν Unit :=
  tryCatch
    (do
      fetchLatest H net
      fetchStatus H net
      -- Update charts with historical data
      updateCharts H net)
    (fun _ => dashboardCatch)

/-- Source: `initDashboard()`, lines 24-34. -/
def initDashboard (H : Host ν) (net : Network ν) : JS ν Unit := do
  consoleLog "🚀 Initializing Rideau Canal Dashboard..."
  -- Initial data fetch
  updateDashboard H net
  -- Set up auto-refresh
  emit (.setInterval .updateDashboard REFRESH_INTERVAL)
  consoleLog "✅ Dashboard initialized successfully"

/-! ## Vocabulary for stating what a run does -/

/-- The element an event writes to, if it is a write to the page. -/
def Event.target : Event → Option String
  | .setTextContent id _ => some id
  | .setClassName id _ => some id
  | .setInnerHTML id _ => some id
  | _ => none

/-- The world `w2` is reached from `w1` by effects that all satisfy `P`: the
trace grew by such events, a missing element is still missing, and an element no
event targets is unchanged. -/
def Step (P : Event → Prop) (w1 w2 : World ν) : Prop :=
  ∃ l, w2.trace = w1.trace ++ l ∧ (∀ e ∈ l, P e) ∧
    (∀ id, w1.dom id = none → w2.dom id = none) ∧
    (∀ id, (∀ e ∈ l, e.target ≠ some id) → w2.dom id = w1.dom id)

/-- Every run of `m` performs only effects satisfying `P`. -/
def Keeps {α : Type} (P : Event → Prop) (m : JS ν α) : Prop :=
  ∀ w, Step P w (m w).2

/-- The ids of the four elements of the card of location key `key`. -/
def cardIds (key : String) : List String :=
  ["ice-" ++ key, "temp-" ++ key, "snow-" ++ key, "status-" ++ key]

/-- The event `e` is a write to the card of the location key that the snapshot
`snap` resolves to. -/
def CardEvent (H : Host ν) (snap : JSVal ν) (e : Event) : Prop :=
  ∃ name key, getProp snap "location" = .ok name ∧ getLocationKey H name = .ok key ∧
    ∃ id ∈ cardIds key, e.target = some id

/-- The event `e` is one the chart refresh can perform. -/
def ChartEvent (H : Host ν) (e : Event) : Prop :=
  (∃ location ∈ locations, e = .fetch (historyUrl H location)) ∨
  (∃ canvas, e = .chartCreated canvas) ∨ (∃ canvas, e = .chartRedrawn canvas) ∨
  e = .consoleError "Error updating charts:"

/-- The event registers or clears a timer. -/
def Event.isTimer : Event → Bool
  | .setInterval _ _ => true
  | .clearInterval => true
  | _ => false

/-- The event is one a refresh cycle can perform: one of its five requests, a
write to the page, a chart creation or redraw, a `console.error` or a call of
`showError`. -/
def CycleEvent (H : Host ν) (e : Event) : Prop :=
  e = .fetch (latestUrl H) ∨ e = .fetch (statusUrl H) ∨ e.target ≠ none ∨ ChartEvent H e ∨
  (∃ msg, e = .consoleError msg) ∨ ∃ msg, e = .showErrorCalled msg

/-- Every run of `m` from a page without the element `id` throws. -/
def FaultsWithout {α : Type} (id : String) (m : JS ν α) : Prop :=
  ∀ w, w.dom id = none → ∃ e, (m w).1 = .error e

/-- The characters that separate the tokens of a `class` attribute. -/
def isAsciiWhitespace (c : Char) : Bool :=
  c == ' ' || c == '\t' || c == '\n' || c == '\x0c' || c == '\r'

/-- The classes an element with the given `className` has: its
whitespace-separated tokens. -/
def classTokens (className : String) : List String :=
  ((className.data.splitOnP isAsciiWhitespace).filter fun t => !t.isEmpty).map String.mk

/-- Every run of `m` that completes normally ends in a world satisfying `Q`. -/
def Post {α : Type} (m : JS ν α) (Q : World ν → Prop) : Prop :=
  ∀ w a w2, m w = (.ok a, w2) → Q w2

/-- The value read by `v.k` when `v` is neither `null` nor `undefined`. -/
def member (v : JSVal ν) (k : String) : JSVal ν :=
  match getProp v k with
  | .ok a => a
  | .error _ => .undefined

/-- The dataset that `dataset field` builds for a location whose points are all
readable. -/
def pointsDataset (field location : String) (points : List (JSVal ν)) : Dataset ν where
  label := (displayNames.lookup location).getD location
  data := points.map fun p => member p field
  borderColor := (colors.lookup location).getD "undefined"
  backgroundColor := (colors.lookup location).getD "undefined" ++ "33"
  tension := 0.4
  fill := false

/-! ## A concrete host, page and network for evaluating the definitions -/

/-- Decimal digits of a natural number (`fuel` bounds the number of digits). -/
def decimal : Nat → Nat → List Char
  | 0, _ => []
  | fuel + 1, n =>
    if n < 10 then [Char.ofNat (48 + n)]
    else decimal fuel (n / 10) ++ [Char.ofNat (48 + n % 10)]

/-- A host for evaluating the definitions on ASCII inputs: a number is an
integer count of tenths, so `toFixed(1)` is exact. -/
def asciiHost : Host Int where
  origin := "http://localhost:3000"
  toLowerCase := asciiLowerCase
  toLowerCase_ascii := fun _ _ => rfl
  numTruthy := fun n => n != 0
  toFixed1 := fun n =>
    String.mk ((if n < 0 then ['-'] else []) ++ decimal 20 (n.natAbs / 10) ++ ['.']
      ++ decimal 1 (n.natAbs % 10))
  textContentOf := fun _ => ""
  templateOf := fun _ => ""
  clock := "12:00:00"
  formatEventTime := fun _ => "12:00"

/-- An element nothing has been written to. -/
def blank : Element := { className := "", content := .text "" }

/-- The ids of a page that has the cards of the three locations, the two
singleton targets and the two canvases. -/
def pageIds : List String :=
  ["ice-dows", "temp-dows", "snow-dows", "status-dows",
   "ice-fifth", "temp-fifth", "snow-fifth", "status-fifth",
   "ice-nac", "temp-nac", "snow-nac", "status-nac",
   "overallStatus", "lastUpdate", "iceThicknessChart", "temperatureChart"]

/-- The page at load time, with the elements `ids`. -/
def pageWith (ids : List String) : World Int where
  dom := fun id => if id ∈ ids then some blank else none
  iceChart := none
  tempChart := none
  chartsConstructed := 0
  trace := []

/-- One item of the `data` array of `/api/latest`. -/
def snapshot (location : String) (ice temp snow : Int) (status : String) : JSVal Int :=
  .obj [("location", .str location), ("avg_ice_thickness", .num ice),
        ("avg_surface_temperature", .num temp), ("max_snow_accumulation", .num snow),
        ("safety_status", .str status)]

/-- One item of the `data` array of `/api/history/...`. -/
def point (time : String) (ice temp : Int) : JSVal Int :=
  .obj [("event_time", .str time), ("avg_ice_thickness", .num ice),
        ("avg_surface_temperature", .num temp)]

/-- A network on which the requests named in `answers` get the paired result
and every other request is rejected. -/
def networkOf (answers : List (String × FetchResult Int)) : Network Int :=
  fun url => (answers.lookup url).getD .rejected

/-- The three snapshots of the scenario with statuses Safe, Caution, Unsafe. -/
def latestOk : FetchResult Int :=
  .response (some (.obj [("success", .bool true),
    ("data", .arr [snapshot "Dow's Lake" 312 (-53) 21 "Safe",
                   snapshot "Fifth Avenue" 287 (-41) 35 "Caution",
                   snapshot "NAC" 190 (-12) 50 "Unsafe"])]))

/-- A successful `/api/status` answer. -/
def statusOk : FetchResult Int :=
  .response (some (.obj [("success", .bool true), ("overallStatus", .str "Caution")]))

/-- A history answer with the given points. -/
def historyOk (points : List (JSVal Int)) : FetchResult Int :=
  .response (some (.obj [("success", .bool true), ("data", .arr points)]))

/-- A network answering every request of a cycle. -/
def fullNet : Network Int := networkOf
  [("http://localhost:3000/api/latest", latestOk),
   ("http://localhost:3000/api/status", statusOk),
   ("http://localhost:3000/api/history/dowslake?limit=12",
      historyOk [point "t1" 300 (-50), point "t2" 310 (-51)]),
   ("http://localhost:3000/api/history/fifthave?limit=12", historyOk [point "t1" 280 (-40)]),
   ("http://localhost:3000/api/history/nac?limit=12", historyOk [])]

/-- A world in which both charts exist already. -/
def chartedPage : World Int :=
  { pageWith pageIds with
    iceChart := some { ident := 0, canvas := "iceThicknessChart", labels := ["11:55"],
                       datasets := [], options := iceOptions }
    tempChart := some { ident := 1, canvas := "temperatureChart", labels := ["11:55"],
                        datasets := [], options := tempOptions }
    chartsConstructed := 2 }

/-- A network on which the history request of Fifth Avenue is rejected and the
other two are answered. -/
def fifthDownNet : Network Int := networkOf
  [("http://localhost:3000/api/history/dowslake?limit=12", historyOk [point "t1" 300 (-50)]),
   ("http://localhost:3000/api/history/nac?limit=12", historyOk [point "t1" 200 (-20)])]

/-- A network whose snapshot and status answers both report failure. -/
def softNet : Network Int := networkOf
  [("http://localhost:3000/api/latest",
      .response (some (.obj [("success", .bool false), ("data", .null)]))),
   ("http://localhost:3000/api/status", .response (some (.obj [("success", .bool false)])))]

/-- The ids of a page that has the singleton targets and the canvases but no
card element. -/
def cardlessIds : List String :=
  ["overallStatus", "lastUpdate", "iceThicknessChart", "temperatureChart"]

/-- A network whose snapshot answer holds the single snapshot of "Dow's Lake". -/
def oneCardNet : Network Int := networkOf
  [("http://localhost:3000/api/latest",
      .response (some (.obj [("success", .bool true),
        ("data", .arr [snapshot "Dow's Lake" 312 (-53) 21 "Safe"])])))]

/-- A response with one snapshot whose status holds a blank. -/
def thinIceData : JSVal Int := .arr [snapshot "NAC" 190 (-12) 50 "Thin Ice"]

/-- A response with two snapshots that resolve to the key "dows". -/
def collidingData : JSVal Int :=
  .arr [snapshot "Dow's Lake" 312 (-53) 21 "Safe",
        snapshot "Dows Lake East" 150 (-10) 60 "Unsafe"]

/-! ## Supporting lemmas: strings and the key resolver -/

/-- The test `includes` is contiguous-substring containment. -/
theorem includes_iff_infix (s pat : String) :
    includes s pat = true ↔ pat.data <:+: s.data := by
  unfold includes
  rw [List.any_eq_true, List.infix_iff_prefix_suffix]
  constructor
  · rintro ⟨t, ht, hp⟩
    exact ⟨t, List.isPrefixOf_iff_prefix.mp hp, (List.mem_tails _ _).mp ht⟩
  · rintro ⟨t, hp, ht⟩
    exact ⟨t, (List.mem_tails _ _).mpr ht, List.isPrefixOf_iff_prefix.mpr hp⟩

/-- A non-empty string is truthy. -/
theorem truthy_str (H : Host ν) (s : String) (h : s ≠ "") : truthy H (.str s) = true := by
  simp [truthy, h]

/-- On a non-empty name the resolver is the chain of substring tests on the
lower-cased name. -/
theorem getLocationKey_str (H : Host ν) (name : String) (h : name ≠ "") :
    getLocationKey H (.str name) =
      if includes (H.toLowerCase name) "dow" then .ok "dows"
      else if includes (H.toLowerCase name) "fifth" then .ok "fifth"
      else if includes (H.toLowerCase name) "nac" then .ok "nac"
      else .ok (stripNonLower (H.toLowerCase name)) := by
  simp [getLocationKey, truthy_str H name h, callToLowerCase]

/-- On ASCII names every host resolves keys as `asciiHost` does. -/
theorem getLocationKey_ascii (H : Host ν) (name : String) (h : isAscii name = true) :
    getLocationKey H (.str name) = getLocationKey asciiHost (.str name) := by
  have h1 : H.toLowerCase name = asciiHost.toLowerCase name := by
    rw [H.toLowerCase_ascii name h, asciiHost.toLowerCase_ascii name h]
  by_cases hne : name = ""
  · subst hne; rfl
  · rw [getLocationKey_str H name hne, getLocationKey_str asciiHost name hne, h1]

/-- A name whose lower-cased form contains a non-empty pattern is not empty. -/
theorem ne_empty_of_includes (H : Host ν) (name pat : String) (hp : includes "" pat = false)
    (h : includes (H.toLowerCase name) pat = true) : name ≠ "" := by
  rintro rfl
  rw [H.toLowerCase_ascii "" (by decide)] at h
  have : asciiLowerCase "" = "" := by decide
  rw [this, hp] at h
  exact Bool.noConfusion h

/-! ## Supporting lemmas: the effect trace -/

@[simp] theorem bind_apply {α β : Type} (m : JS ν α) (f : α → JS ν β) (w : World ν) :
    (m >>= f) w = match m w with
      | (.ok a, w1) => f a w1
      | (.error e, w1) => (.error e, w1) := rfl

@[simp] theorem pure_apply {α : Type} (a : α) (w : World ν) :
    (pure a : JS ν α) w = (.ok a, w) := rfl

theorem Step.refl (P : Event → Prop) (w : World ν) : Step P w w :=
  ⟨[], by simp, by simp, fun _ h => h, fun _ _ => rfl⟩

theorem Step.trans {P : Event → Prop} {a b c : World ν} (h1 : Step P a b) (h2 : Step P b c) :
    Step P a c := by
  obtain ⟨l1, t1, p1, n1, f1⟩ := h1
  obtain ⟨l2, t2, p2, n2, f2⟩ := h2
  refine ⟨l1 ++ l2, by rw [t2, t1, List.append_assoc], ?_, fun id h => n2 id (n1 id h), ?_⟩
  · intro e he
    rcases List.mem_append.mp he with h | h
    · exact p1 e h
    · exact p2 e h
  · intro id h
    rw [f2 id (fun e he => h e (List.mem_append.mpr (Or.inr he))),
      f1 id (fun e he => h e (List.mem_append.mpr (Or.inl he)))]

theorem Step.weaken {P Q : Event → Prop} {a b : World ν} (hPQ : ∀ e, P e → Q e)
    (h : Step P a b) : Step Q a b := by
  obtain ⟨l, t, p, n, f⟩ := h
  exact ⟨l, t, fun e he => hPQ e (p e he), n, f⟩

theorem Keeps.mono {α : Type} {P Q : Event → Prop} {m : JS ν α} (hPQ : ∀ e, P e → Q e)
    (h : Keeps P m) : Keeps Q m := fun w => (h w).weaken hPQ

theorem keeps_pure {α : Type} (P : Event → Prop) (a : α) : Keeps P (pure a : JS ν α) :=
  fun w => Step.refl P w

theorem keeps_liftE {α : Type} (P : Event → Prop) (x : Except Fault α) :
    Keeps P (liftE x : JS ν α) :=
  fun w => Step.refl P w

theorem keeps_bind {α β : Type} {P : Event → Prop} {m : JS ν α} {f : α → JS ν β}
    (hm : Keeps P m) (hf : ∀ a, Keeps P (f a)) : Keeps P (m >>= f) := by
  intro w
  have h1 := hm w
  rw [bind_apply]
  rcases hmw : m w with ⟨r, w1⟩
  rw [hmw] at h1
  cases r with
  | error e => exact h1
  | ok a => exact h1.trans (hf a w1)

theorem keeps_tryCatch {α : Type} {P : Event → Prop} {body : JS ν α} {handler : Fault → JS ν α}
    (hb : Keeps P body) (hh : ∀ e, Keeps P (handler e)) : Keeps P (tryCatch body handler) := by
  intro w
  have h1 := hb w
  unfold tryCatch
  rcases hmw : body w with ⟨r, w1⟩
  rw [hmw] at h1
  cases r with
  | error e => exact h1.trans (hh e w1)
  | ok a => exact h1

theorem keeps_emit {P : Event → Prop} {e : Event} (h : P e) : Keeps P (emit e : JS ν Unit) := by
  intro w
  exact ⟨[e], rfl, by simpa using h, fun _ h => h, fun _ _ => rfl⟩

theorem keeps_forEach {α : Type} {P : Event → Prop} (xs : List α) (f : α → JS ν Unit)
    (hf : ∀ x ∈ xs, Keeps P (f x)) : Keeps P (forEach xs f) := by
  induction xs with
  | nil => exact keeps_pure P ()
  | cons x xs ih =>
    exact keeps_bind (hf x (List.mem_cons_self x xs))
      (fun _ => ih (fun y hy => hf y (List.mem_cons_of_mem x hy)))

theorem keeps_getElementById (P : Event → Prop) (id : String) :
    Keeps P (getElementById id : JS ν (Option String)) :=
  fun w => Step.refl P w

theorem keeps_fetch {P : Event → Prop} (net : Network ν) {url : String} (h : P (.fetch url)) :
    Keeps P (fetch net url) := by
  intro w
  refine ⟨[.fetch url], ?_, by simpa using h, ?_, ?_⟩ <;>
    (unfold fetch; cases net url <;> simp)

/-- A write to the page is a step when the event it records satisfies `P`. -/
theorem step_write {P : Event → Prop} (w : World ν) (id : String) (el : Element) (e : Event)
    (hP : P e) (ht : e.target = some id) (hex : w.dom id ≠ none) :
    Step P w { w.setElement id el with trace := w.trace ++ [e] } := by
  refine ⟨[e], rfl, by simpa using hP, ?_, ?_⟩
  · intro i hi
    have : i ≠ id := fun h => hex (h ▸ hi)
    simp [World.setElement, this, hi]
  · intro i hi
    have : i ≠ id := by
      rintro rfl
      exact hi e (List.mem_singleton.mpr rfl) ht
    simp [World.setElement, this]

theorem keeps_setTextContent {P : Event → Prop} (el : Option String) (text : String)
    (h : ∀ id, el = some id → P (.setTextContent id text)) : Keeps P (setTextContent el text : JS ν Unit) := by
  intro w
  unfold setTextContent
  cases el with
  | none => exact Step.refl P w
  | some id =>
    dsimp only
    cases hd : w.dom id with
    | none => exact Step.refl P w
    | some e0 => exact step_write w id _ _ (h id rfl) rfl (by simp [hd])

theorem keeps_setClassName {P : Event → Prop} (el : Option String) (cls : String)
    (h : ∀ id, el = some id → P (.setClassName id cls)) : Keeps P (setClassName el cls : JS ν Unit) := by
  intro w
  unfold setClassName
  cases el with
  | none => exact Step.refl P w
  | some id =>
    dsimp only
    cases hd : w.dom id with
    | none => exact Step.refl P w
    | some e0 => exact step_write w id _ _ (h id rfl) rfl (by simp [hd])

theorem keeps_setInnerHTML {P : Event → Prop} (el : Option String) (html : String)
    (h : ∀ id, el = some id → P (.setInnerHTML id html)) : Keeps P (setInnerHTML el html : JS ν Unit) := by
  intro w
  unfold setInnerHTML
  cases el with
  | none => exact Step.refl P w
  | some id =>
    dsimp only
    cases hd : w.dom id with
    | none => exact Step.refl P w
    | some e0 => exact step_write w id _ _ (h id rfl) rfl (by simp [hd])

/-- The reference `getElementById` returns names the element asked for. -/
theorem getElementById_eq (id : String) (w : World ν) :
    getElementById id w = (.ok ((w.dom id).map fun _ => id), w) := rfl

/-! ## Supporting lemmas: the refresh cycle -/

/-- A callback that throws on some element makes `map` throw. -/
theorem mapE_error_of_mem {α β : Type} (f : α → Except Fault β) (xs : List α) (x : α)
    (hx : x ∈ xs) (e : Fault) (hf : f x = .error e) : ∃ e2, mapE f xs = .error e2 := by
  induction xs with
  | nil => cases hx
  | cons y ys ih =>
    unfold mapE
    cases hy : f y with
    | error e1 => exact ⟨e1, rfl⟩
    | ok b =>
      rcases List.mem_cons.mp hx with rfl | hmem
      · rw [hf] at hy; cases hy
      · obtain ⟨e2, h2⟩ := ih hmem
        exact ⟨e2, by simp [h2]⟩

/-- The world after the three history requests have been issued. -/
theorem historicalData_world (H : Host ν) (net : Network ν) (w : World ν) :
    historicalData H net w = (mapE (historyEntry H net) locations,
      { w with trace := w.trace ++ [.fetch (historyUrl H "dowslake"),
          .fetch (historyUrl H "fifthave"), .fetch (historyUrl H "nac")] }) := by
  simp [historicalData, forEach, locations, emit, liftE]

/-- The refresh cycle when the snapshot request is rejected. -/
theorem updateDashboard_rejected (H : Host ν) (net : Network ν) (w : World ν)
    (h : net (latestUrl H) = .rejected) :
    updateDashboard H net w = (.ok (), { w with trace := w.trace ++
      [.fetch (latestUrl H), .consoleError "Error updating dashboard:",
       .showErrorCalled "Failed to fetch latest data. Retrying...",
       .consoleError "Failed to fetch latest data. Retrying..."] }) := by
  simp [updateDashboard, tryCatch, fetchLatest, fetch, h, dashboardCatch, showError,
    consoleError, emit]

/-- The chart refresh when one of the history requests is rejected. -/
theorem updateCharts_rejected (H : Host ν) (net : Network ν) (w : World ν)
    (h : ∃ location ∈ locations, net (historyUrl H location) = .rejected) :
    updateCharts H net w = (.ok (), { w with trace := w.trace ++
      [.fetch (historyUrl H "dowslake"), .fetch (historyUrl H "fifthave"),
       .fetch (historyUrl H "nac"), .consoleError "Error updating charts:"] }) := by
  obtain ⟨location, hmem, hrej⟩ := h
  obtain ⟨e2, he2⟩ := mapE_error_of_mem (historyEntry H net) locations location hmem
    .networkError (by simp [historyEntry, hrej])
  simp [updateCharts, tryCatch, historicalData_world, he2, consoleError, emit]

/-! ## Supporting lemmas: the effects of each function -/

theorem keeps_bind_liftE {α β : Type} {P : Event → Prop} (x : Except Fault α) {f : α → JS ν β}
    (hf : ∀ a, x = .ok a → Keeps P (f a)) : Keeps P (liftE x >>= f) := by
  intro w
  rw [bind_apply]
  cases x with
  | error e => exact Step.refl P w
  | ok a => exact hf a rfl w

theorem keeps_bind_getElementById {β : Type} {P : Event → Prop} (id : String)
    {f : Option String → JS ν β}
    (hf : ∀ el, (∀ i, el = some i → i = id) → Keeps P (f el)) :
    Keeps P (getElementById id >>= f) := by
  intro w
  rw [bind_apply, getElementById_eq]
  refine hf _ ?_ w
  intro i hi
  cases hd : w.dom id with
  | none => rw [hd] at hi; cases hi
  | some e0 => rw [hd] at hi; exact (Option.some.inj hi).symm

theorem keeps_locationCard (H : Host ν) (snap : JSVal ν) :
    Keeps (CardEvent H snap) (locationCard H snap) := by
  unfold locationCard
  refine keeps_bind_liftE _ (fun name hname => ?_)
  refine keeps_bind_liftE _ (fun key hkey => ?_)
  have hid : ∀ id ∈ cardIds key, ∀ e : Event, e.target = some id → CardEvent H snap e :=
    fun id hmem e he => ⟨name, key, hname, hkey, id, hmem, he⟩
  refine keeps_bind_getElementById _ (fun iceEl hice => ?_)
  refine keeps_bind_liftE _ (fun ice _ => ?_)
  refine keeps_bind (keeps_setTextContent _ _ (fun id h => ?_)) (fun _ => ?_)
  · exact hid ("ice-" ++ key) (by simp [cardIds]) _ (by rw [hice id h]; rfl)
  refine keeps_bind_getElementById _ (fun tempEl htemp => ?_)
  refine keeps_bind_liftE _ (fun temp _ => ?_)
  refine keeps_bind (keeps_setTextContent _ _ (fun id h => ?_)) (fun _ => ?_)
  · exact hid ("temp-" ++ key) (by simp [cardIds]) _ (by rw [htemp id h]; rfl)
  refine keeps_bind_getElementById _ (fun snowEl hsnow => ?_)
  refine keeps_bind_liftE _ (fun snow _ => ?_)
  refine keeps_bind (keeps_setTextContent _ _ (fun id h => ?_)) (fun _ => ?_)
  · exact hid ("snow-" ++ key) (by simp [cardIds]) _ (by rw [hsnow id h]; rfl)
  refine keeps_bind_getElementById _ (fun statusBadge hbadge => ?_)
  refine keeps_bind_liftE _ (fun safetyStatus _ => ?_)
  refine keeps_bind (keeps_setTextContent _ _ (fun id h => ?_)) (fun _ => ?_)
  · exact hid ("status-" ++ key) (by simp [cardIds]) _ (by rw [hbadge id h]; rfl)
  refine keeps_bind_liftE _ (fun lower _ => ?_)
  refine keeps_setClassName _ _ (fun id h => ?_)
  exact hid ("status-" ++ key) (by simp [cardIds]) _ (by rw [hbadge id h]; rfl)

theorem keeps_updateLocationCards (H : Host ν) (locs : JSVal ν) :
    Keeps (fun e => ∃ items, asArray locs = .ok items ∧ ∃ snap ∈ items, CardEvent H snap e)
      (updateLocationCards H locs) := by
  unfold updateLocationCards
  refine keeps_bind_liftE _ (fun items hitems => ?_)
  refine keeps_forEach _ _ (fun snap hsnap => ?_)
  exact (keeps_locationCard H snap).mono (fun e he => ⟨items, hitems, snap, hsnap, he⟩)

theorem keeps_updateLastUpdateTime (H : Host ν) :
    Keeps (fun e => e = .setTextContent "lastUpdate" H.clock) (updateLastUpdateTime H) := by
  unfold updateLastUpdateTime
  refine keeps_bind_getElementById _ (fun el hel => ?_)
  exact keeps_setTextContent _ _ (fun id h => by rw [hel id h])

theorem keeps_updateOverallStatus (H : Host ν) (status : JSVal ν) :
    Keeps (fun e => e.target = some "overallStatus") (updateOverallStatus H status) := by
  unfold updateOverallStatus
  refine keeps_bind_getElementById _ (fun el hel => ?_)
  refine keeps_bind_liftE _ (fun lower _ => ?_)
  refine keeps_bind (keeps_setClassName _ _ (fun id h => ?_)) (fun _ => ?_)
  · rw [hel id h]; rfl
  exact keeps_setInnerHTML _ _ (fun id h => by rw [hel id h]; rfl)

theorem keeps_fetchLatest (H : Host ν) (net : Network ν) :
    Keeps (fun e => e = .fetch (latestUrl H) ∨ e.target ≠ none) (fetchLatest H net) := by
  unfold fetchLatest
  refine keeps_bind (keeps_fetch net (Or.inl rfl)) (fun latestResponse => ?_)
  refine keeps_bind_liftE _ (fun latestData _ => ?_)
  refine keeps_bind_liftE _ (fun success _ => ?_)
  split
  · refine keeps_bind_liftE _ (fun data _ => ?_)
    refine keeps_bind ((keeps_updateLocationCards H data).mono ?_) (fun _ => ?_)
    · rintro e ⟨_, _, _, _, _, _, _, _, id, _, he⟩
      exact Or.inr (by rw [he]; simp)
    · exact (keeps_updateLastUpdateTime H).mono (fun e he => Or.inr (by rw [he]; simp [Event.target]))
  · exact keeps_pure _ _

theorem keeps_fetchStatus (H : Host ν) (net : Network ν) :
    Keeps (fun e => e = .fetch (statusUrl H) ∨ e.target = some "overallStatus")
      (fetchStatus H net) := by
  unfold fetchStatus
  refine keeps_bind (keeps_fetch net (Or.inl rfl)) (fun statusResponse => ?_)
  refine keeps_bind_liftE _ (fun statusData _ => ?_)
  refine keeps_bind_liftE _ (fun success _ => ?_)
  split
  · refine keeps_bind_liftE _ (fun overallStatus _ => ?_)
    exact (keeps_updateOverallStatus H overallStatus).mono (fun e he => Or.inr he)
  · exact keeps_pure _ _

theorem keeps_refreshIceChart {P : Event → Prop} (labels : List String)
    (ds : List (Dataset ν)) (h1 : ∀ canvas, P (.chartRedrawn canvas))
    (h2 : ∀ canvas, P (.chartCreated canvas)) : Keeps P (refreshIceChart labels ds) := by
  intro w
  unfold refreshIceChart
  cases hc : w.iceChart with
  | some c => exact ⟨[_], rfl, by simpa using h1 _, fun _ h => h, fun _ _ => rfl⟩
  | none =>
    dsimp only
    cases hd : w.dom "iceThicknessChart" with
    | none => exact Step.refl P w
    | some e0 => exact ⟨[_], rfl, by simpa using h2 _, fun _ h => h, fun _ _ => rfl⟩

theorem keeps_refreshTempChart {P : Event → Prop} (labels : List String)
    (ds : List (Dataset ν)) (h1 : ∀ canvas, P (.chartRedrawn canvas))
    (h2 : ∀ canvas, P (.chartCreated canvas)) : Keeps P (refreshTempChart labels ds) := by
  intro w
  unfold refreshTempChart
  cases hc : w.tempChart with
  | some c => exact ⟨[_], rfl, by simpa using h1 _, fun _ h => h, fun _ _ => rfl⟩
  | none =>
    dsimp only
    cases hd : w.dom "temperatureChart" with
    | none => exact Step.refl P w
    | some e0 => exact ⟨[_], rfl, by simpa using h2 _, fun _ h => h, fun _ _ => rfl⟩

theorem keeps_updateCharts (H : Host ν) (net : Network ν) :
    Keeps (ChartEvent H) (updateCharts H net) := by
  unfold updateCharts
  refine keeps_tryCatch ?_ (fun _ => keeps_emit (Or.inr (Or.inr (Or.inr rfl))))
  refine keeps_bind ?_ (fun historicalData => ?_)
  · unfold historicalData
    refine keeps_bind (keeps_forEach _ _ (fun location hl => ?_)) (fun _ => keeps_liftE _ _)
    exact keeps_emit (Or.inl ⟨location, hl, rfl⟩)
  refine keeps_bind_liftE _ (fun iceDatasets _ => ?_)
  refine keeps_bind_liftE _ (fun tempDatasets _ => ?_)
  refine keeps_bind_liftE _ (fun labels _ => ?_)
  refine keeps_bind (keeps_refreshIceChart _ _ ?_ ?_) (fun _ => keeps_refreshTempChart _ _ ?_ ?_)
  · exact fun c => Or.inr (Or.inr (Or.inl ⟨c, rfl⟩))
  · exact fun c => Or.inr (Or.inl ⟨c, rfl⟩)
  · exact fun c => Or.inr (Or.inr (Or.inl ⟨c, rfl⟩))
  · exact fun c => Or.inr (Or.inl ⟨c, rfl⟩)

theorem keeps_dashboardCatch :
    Keeps (fun e => (∃ msg, e = .consoleError msg) ∨ ∃ msg, e = .showErrorCalled msg)
      (dashboardCatch : JS ν Unit) := by
  unfold dashboardCatch showError consoleError
  refine keeps_bind (keeps_emit (Or.inl ⟨_, rfl⟩)) (fun _ => ?_)
  exact keeps_bind (keeps_emit (Or.inr ⟨_, rfl⟩)) (fun _ => keeps_emit (Or.inl ⟨_, rfl⟩))

/-- The handler of `updateDashboard` completes normally. -/
theorem dashboardCatch_ok (w : World ν) : (dashboardCatch w).1 = .ok () := by
  simp [dashboardCatch, showError, consoleError, emit]

/-- The promise returned by `updateDashboard` never rejects. -/
theorem updateDashboard_completes (H : Host ν) (net : Network ν) (w : World ν) :
    (updateDashboard H net w).1 = .ok () := by
  unfold updateDashboard tryCatch
  split
  · rfl
  · exact dashboardCatch_ok _

theorem keeps_updateDashboard (H : Host ν) (net : Network ν) :
    Keeps (CycleEvent H) (updateDashboard H net) := by
  unfold updateDashboard
  refine keeps_tryCatch ?_ (fun _ => keeps_dashboardCatch.mono ?_)
  · refine keeps_bind ((keeps_fetchLatest H net).mono ?_) (fun _ => ?_)
    · rintro e (he | he)
      · exact Or.inl he
      · exact Or.inr (Or.inr (Or.inl he))
    refine keeps_bind ((keeps_fetchStatus H net).mono ?_) (fun _ => ?_)
    · rintro e (he | he)
      · exact Or.inr (Or.inl he)
      · exact Or.inr (Or.inr (Or.inl (by rw [he]; simp)))
    exact (keeps_updateCharts H net).mono (fun e he => Or.inr (Or.inr (Or.inr (Or.inl he))))
  · rintro e (he | he)
    · exact Or.inr (Or.inr (Or.inr (Or.inr (Or.inl he))))
    · exact Or.inr (Or.inr (Or.inr (Or.inr (Or.inr he))))

/-- No event of a refresh cycle registers or clears a timer. -/
theorem CycleEvent.not_timer {H : Host ν} {e : Event} (h : CycleEvent H e) :
    e.isTimer = false := by
  rcases h with h | h | h | h | h | h
  · rw [h]; rfl
  · rw [h]; rfl
  · cases e <;> simp [Event.target] at h <;> rfl
  · rcases h with ⟨_, _, h⟩ | ⟨_, h⟩ | ⟨_, h⟩ | h <;> (rw [h]; rfl)
  · obtain ⟨_, h⟩ := h; rw [h]; rfl
  · obtain ⟨_, h⟩ := h; rw [h]; rfl

/-- The world `initDashboard` reaches, in terms of the one cycle it runs. -/
theorem initDashboard_world (H : Host ν) (net : Network ν) (w : World ν) :
    initDashboard H net w =
      (.ok (), { (updateDashboard H net
          { w with trace := w.trace ++ [.consoleLog "🚀 Initializing Rideau Canal Dashboard..."] }).2
        with trace := (updateDashboard H net
          { w with trace := w.trace ++ [.consoleLog "🚀 Initializing Rideau Canal Dashboard..."] }).2.trace
          ++ [.setInterval .updateDashboard REFRESH_INTERVAL,
              .consoleLog "✅ Dashboard initialized successfully"] }) := by
  have h := updateDashboard_completes H net
    { w with trace := w.trace ++ [.consoleLog "🚀 Initializing Rideau Canal Dashboard..."] }
  rcases hr : updateDashboard H net
    { w with trace := w.trace ++ [.consoleLog "🚀 Initializing Rideau Canal Dashboard..."] }
    with ⟨r, w1⟩
  rw [hr] at h
  simp only at h
  subst h
  simp [initDashboard, consoleLog, emit, hr]

/-! ## Supporting lemmas: missing binding elements -/

theorem faults_bind_left {α β : Type} {id : String} {m : JS ν α} (f : α → JS ν β)
    (hm : FaultsWithout id m) : FaultsWithout id (m >>= f) := by
  intro w hw
  obtain ⟨e, he⟩ := hm w hw
  rw [bind_apply]
  rcases hmw : m w with ⟨r, w1⟩
  rw [hmw] at he
  cases r with
  | error e1 => exact ⟨e1, rfl⟩
  | ok a => cases he

theorem faults_bind_right {α β : Type} {id : String} {P : Event → Prop} {m : JS ν α}
    {f : α → JS ν β} (hm : Keeps P m) (hf : ∀ a, FaultsWithout id (f a)) :
    FaultsWithout id (m >>= f) := by
  intro w hw
  obtain ⟨_, _, _, hnone, _⟩ := hm w
  rw [bind_apply]
  rcases hmw : m w with ⟨r, w1⟩
  rw [hmw] at hnone
  cases r with
  | error e1 => exact ⟨e1, rfl⟩
  | ok a => exact hf a w1 (hnone id hw)

theorem faults_bind_liftE {α β : Type} {id : String} (x : Except Fault α) {f : α → JS ν β}
    (hf : ∀ a, x = .ok a → FaultsWithout id (f a)) : FaultsWithout id (liftE x >>= f) := by
  intro w hw
  rw [bind_apply]
  cases x with
  | error e => exact ⟨e, rfl⟩
  | ok a => exact hf a rfl w hw

/-- Looking up a missing element and then writing its text throws. -/
theorem faults_textContent {β : Type} (id : String) (x : Except Fault String)
    (f : Unit → JS ν β) :
    FaultsWithout id (getElementById id >>= fun el =>
      liftE x >>= fun t => setTextContent el t >>= f) := by
  intro w hw
  cases x <;> simp [getElementById_eq, hw, liftE, setTextContent]

/-- Looking up a missing badge and then writing its text throws. -/
theorem faults_badge {β : Type} (id : String) (x : Except Fault (JSVal ν))
    (g : JSVal ν → String) (f : Option String → JSVal ν → Unit → JS ν β) :
    FaultsWithout id (getElementById id >>= fun el =>
      liftE x >>= fun v => setTextContent el (g v) >>= f el v) := by
  intro w hw
  cases x <;> simp [getElementById_eq, hw, liftE, setTextContent]

/-- Rendering a snapshot throws when one of the four elements of its card is
missing from the page. -/
theorem faults_locationCard (H : Host ν) (snap name : JSVal ν) (key id : String)
    (hname : getProp snap "location" = .ok name) (hkey : getLocationKey H name = .ok key)
    (hid : id ∈ cardIds key) : FaultsWithout id (locationCard H snap) := by
  unfold locationCard
  refine faults_bind_liftE _ (fun name1 h1 => ?_)
  obtain rfl : name = name1 := by rw [hname] at h1; injection h1
  refine faults_bind_liftE _ (fun key1 h2 => ?_)
  obtain rfl : key = key1 := by rw [hkey] at h2; injection h2
  simp only [cardIds, List.mem_cons, List.mem_singleton, List.not_mem_nil, or_false] at hid
  rcases hid with rfl | rfl | rfl | rfl
  · exact faults_textContent _ _ _
  · refine faults_bind_right (keeps_getElementById (fun _ => True) _) (fun _ => ?_)
    refine faults_bind_liftE _ (fun _ _ => ?_)
    refine faults_bind_right (P := fun _ => True) (keeps_setTextContent _ _ (fun _ _ => trivial))
      (fun _ => ?_)
    exact faults_textContent _ _ _
  · refine faults_bind_right (keeps_getElementById (fun _ => True) _) (fun _ => ?_)
    refine faults_bind_liftE _ (fun _ _ => ?_)
    refine faults_bind_right (P := fun _ => True) (keeps_setTextContent _ _ (fun _ _ => trivial))
      (fun _ => ?_)
    refine faults_bind_right (keeps_getElementById (fun _ => True) _) (fun _ => ?_)
    refine faults_bind_liftE _ (fun _ _ => ?_)
    refine faults_bind_right (P := fun _ => True) (keeps_setTextContent _ _ (fun _ _ => trivial))
      (fun _ => ?_)
    exact faults_textContent _ _ _
  · refine faults_bind_right (keeps_getElementById (fun _ => True) _) (fun _ => ?_)
    refine faults_bind_liftE _ (fun _ _ => ?_)
    refine faults_bind_right (P := fun _ => True) (keeps_setTextContent _ _ (fun _ _ => trivial))
      (fun _ => ?_)
    refine faults_bind_right (keeps_getElementById (fun _ => True) _) (fun _ => ?_)
    refine faults_bind_liftE _ (fun _ _ => ?_)
    refine faults_bind_right (P := fun _ => True) (keeps_setTextContent _ _ (fun _ _ => trivial))
      (fun _ => ?_)
    refine faults_bind_right (keeps_getElementById (fun _ => True) _) (fun _ => ?_)
    refine faults_bind_liftE _ (fun _ _ => ?_)
    refine faults_bind_right (P := fun _ => True) (keeps_setTextContent _ _ (fun _ _ => trivial))
      (fun _ => ?_)
    exact faults_badge _ _ _ _

/-- Rendering a list of snapshots throws when a card element of one of them is
missing from the page. -/
theorem faults_forEach_locationCard (H : Host ν) (items : List (JSVal ν)) (snap name : JSVal ν)
    (key id : String) (hsnap : snap ∈ items) (hname : getProp snap "location" = .ok name)
    (hkey : getLocationKey H name = .ok key) (hid : id ∈ cardIds key) :
    FaultsWithout id (forEach items (locationCard H)) := by
  induction items with
  | nil => cases hsnap
  | cons x xs ih =>
    rcases List.mem_cons.mp hsnap with rfl | hmem
    · exact faults_bind_left _ (faults_locationCard H snap name key id hname hkey hid)
    · exact faults_bind_right (keeps_locationCard H x) (fun _ => ih hmem)

/-! ## Supporting lemmas: the snapshot block -/

/-- The snapshot block when the payload reports success. -/
theorem fetchLatest_success (H : Host ν) (net : Network ν) (w : World ν)
    (payload success data : JSVal ν) (hnet : net (latestUrl H) = .response (some payload))
    (hsucc : getProp payload "success" = .ok success) (htruthy : truthy H success = true)
    (hdata : getProp payload "data" = .ok data) :
    fetchLatest H net w = (updateLocationCards H data >>= fun _ => updateLastUpdateTime H)
      { w with trace := w.trace ++ [.fetch (latestUrl H)] } := by
  simp [fetchLatest, fetch, hnet, json, liftE, hsucc, htruthy, hdata]

/-- The snapshot block when the payload reports failure. -/
theorem fetchLatest_soft (H : Host ν) (net : Network ν) (w : World ν)
    (payload success : JSVal ν) (hnet : net (latestUrl H) = .response (some payload))
    (hsucc : getProp payload "success" = .ok success) (hfalsy : truthy H success = false) :
    fetchLatest H net w = (.ok (), { w with trace := w.trace ++ [.fetch (latestUrl H)] }) := by
  simp [fetchLatest, fetch, hnet, json, liftE, hsucc, hfalsy]

/-- The snapshot block when the request is rejected. -/
theorem fetchLatest_rejected (H : Host ν) (net : Network ν) (w : World ν)
    (hnet : net (latestUrl H) = .rejected) :
    fetchLatest H net w =
      (.error .networkError, { w with trace := w.trace ++ [.fetch (latestUrl H)] }) := by
  simp [fetchLatest, fetch, hnet]

/-- A throw in the snapshot block is caught by `updateDashboard`. -/
theorem updateDashboard_of_fetchLatest_error (H : Host ν) (net : Network ν) (w w2 : World ν)
    (e : Fault) (h : fetchLatest H net w = (.error e, w2)) :
    updateDashboard H net w = (.ok (), { w2 with trace := w2.trace ++
      [.consoleError "Error updating dashboard:",
       .showErrorCalled "Failed to fetch latest data. Retrying...",
       .consoleError "Failed to fetch latest data. Retrying..."] }) := by
  simp [updateDashboard, tryCatch, h, dashboardCatch, showError, consoleError, emit]

/-- After a normal snapshot block the cycle goes on with the status block. -/
theorem updateDashboard_of_fetchLatest_ok (H : Host ν) (net : Network ν) (w w1 : World ν)
    (h : fetchLatest H net w = (.ok (), w1)) :
    updateDashboard H net w =
      tryCatch (fetchStatus H net >>= fun _ => updateCharts H net) (fun _ => dashboardCatch) w1 := by
  simp [updateDashboard, tryCatch, h]

/-- Rendering the cards and the time stamp writes to the page only. -/
theorem keeps_render (H : Host ν) (data : JSVal ν) :
    Keeps (fun e => e.target ≠ none)
      (updateLocationCards H data >>= fun _ => updateLastUpdateTime H) := by
  refine keeps_bind ((keeps_updateLocationCards H data).mono ?_) (fun _ => ?_)
  · rintro e ⟨_, _, _, _, _, _, _, _, id, _, he⟩
    rw [he]; simp
  · exact (keeps_updateLastUpdateTime H).mono (fun e he => by rw [he]; simp [Event.target])

/-- Rendering that completes normally has written the time stamp. -/
theorem render_ok_trace (H : Host ν) (data : JSVal ν) (w w2 : World ν)
    (h : (updateLocationCards H data >>= fun _ => updateLastUpdateTime H) w = (.ok (), w2)) :
    w2.trace ≠ w.trace := by
  rw [bind_apply] at h
  rcases hc : updateLocationCards H data w with ⟨r, w1⟩
  obtain ⟨l, hl, -, -, -⟩ := keeps_updateLocationCards H data w
  rw [hc] at h hl
  cases r with
  | error e => cases h
  | ok u =>
    simp only [updateLastUpdateTime, bind_apply, getElementById_eq, setTextContent] at h
    cases hd : w1.dom "lastUpdate" with
    | none => simp [hd] at h
    | some el =>
      simp only [hd, Option.map_some'] at h
      injection h with _ h2
      rw [← h2]
      simp only at hl ⊢
      rw [hl]
      intro hcontra
      have := congrArg List.length hcontra
      simp at this

/-- The chart refresh completes normally, whatever happens in it. -/
theorem updateCharts_completes (H : Host ν) (net : Network ν) (w : World ν) :
    (updateCharts H net w).1 = .ok () := by
  unfold updateCharts tryCatch
  split
  · rfl
  · simp [consoleError, emit]

/-- A value with one readable property has every property readable. -/
theorem getProp_ok_of_ok (v a : JSVal ν) (k k2 : String) (h : getProp v k = .ok a) :
    ∃ b, getProp v k2 = .ok b := by
  cases v <;> simp [getProp] at h ⊢

theorem js_bind_assoc {α β γ : Type} (m : JS ν α) (f : α → JS ν β) (g : β → JS ν γ) :
    (m >>= f) >>= g = m >>= fun a => f a >>= g := by
  funext w
  simp only [bind_apply]
  rcases m w with ⟨r, w1⟩
  cases r <;> rfl

/-- A block that starts with a request: the request is issued, and what follows
is a step from there. -/
theorem step_tryCatch_fetch {β : Type} {P : Event → Prop} (net : Network ν) (url : String)
    (k : Option (JSVal ν) → JS ν β) (handler : Fault → JS ν β) (w : World ν)
    (hk : ∀ a, Keeps P (k a)) (hh : ∀ e, Keeps P (handler e)) :
    Step P { w with trace := w.trace ++ [.fetch url] }
      (tryCatch (fetch net url >>= k) handler w).2 := by
  simp only [tryCatch, bind_apply, fetch]
  cases net url with
  | rejected => exact hh _ _
  | response b => exact keeps_tryCatch (hk b) hh _

/-- What follows the status request in a cycle writes to `overallStatus` only. -/
theorem step_status_and_charts (H : Host ν) (net : Network ν) (w : World ν) :
    Step (fun e => e.target = none ∨ e.target = some "overallStatus")
      { w with trace := w.trace ++ [.fetch (statusUrl H)] }
      (tryCatch (fetchStatus H net >>= fun _ => updateCharts H net)
        (fun _ => dashboardCatch) w).2 := by
  unfold fetchStatus
  rw [js_bind_assoc]
  refine step_tryCatch_fetch net _ _ _ w (fun statusResponse => ?_)
    (fun _ => keeps_dashboardCatch.mono ?_)
  · refine keeps_bind ?_ (fun _ => (keeps_updateCharts H net).mono ?_)
    · refine keeps_bind_liftE _ (fun statusData _ => ?_)
      refine keeps_bind_liftE _ (fun success _ => ?_)
      split
      · refine keeps_bind_liftE _ (fun overallStatus _ => ?_)
        exact (keeps_updateOverallStatus H overallStatus).mono (fun e he => Or.inr he)
      · exact keeps_pure _ _
    · rintro e (⟨_, _, h⟩ | ⟨_, h⟩ | ⟨_, h⟩ | h) <;> (rw [h]; exact Or.inl rfl)
  · rintro e (⟨_, h⟩ | ⟨_, h⟩) <;> (rw [h]; exact Or.inl rfl)

/-- When the status block completes normally, the rest of the cycle does not
call `showError`. -/
theorem no_showError_of_status_ok (H : Host ν) (net : Network ν) (w : World ν)
    (h : (fetchStatus H net w).1 = .ok ()) :
    ∃ l, (tryCatch (fetchStatus H net >>= fun _ => updateCharts H net)
        (fun _ => dashboardCatch) w).2.trace = w.trace ++ l ∧
      ∀ msg, Event.showErrorCalled msg ∉ l := by
  have hk : Keeps (fun e => ∀ msg, e ≠ Event.showErrorCalled msg)
      (fetchStatus H net >>= fun _ => updateCharts H net) := by
    refine keeps_bind ((keeps_fetchStatus H net).mono ?_)
      (fun _ => (keeps_updateCharts H net).mono ?_)
    · rintro e (h | h) msg
      · rw [h]; simp
      · rintro rfl; simp [Event.target] at h
    · rintro e (⟨_, _, h⟩ | ⟨_, h⟩ | ⟨_, h⟩ | h) msg <;> (rw [h]; simp)
  obtain ⟨l, hl, hP, -, -⟩ := hk w
  have hbody : ((fetchStatus H net >>= fun _ => updateCharts H net) w).1 = .ok () := by
    rw [bind_apply]
    rcases hs : fetchStatus H net w with ⟨r, w1⟩
    rw [hs] at h
    simp only at h
    subst h
    exact updateCharts_completes H net w1
  refine ⟨l, ?_, fun msg hmem => hP _ hmem msg rfl⟩
  unfold tryCatch
  rcases hb : (fetchStatus H net >>= fun _ => updateCharts H net) w with ⟨r, w2⟩
  rw [hb] at hbody hl
  simp only at hbody
  subst hbody
  exact hl

/-! ## Supporting lemmas: the badge of a card -/

theorem forEach_append {α : Type} (xs ys : List α) (f : α → JS ν Unit) :
    forEach (xs ++ ys) f = forEach xs f >>= fun _ => forEach ys f := by
  induction xs with
  | nil => funext w; rfl
  | cons x xs ih =>
    show (f x >>= fun _ => forEach (xs ++ ys) f) = (f x >>= fun _ => forEach xs f) >>= _
    rw [ih, js_bind_assoc]

theorem post_bind_right {α β : Type} (m : JS ν α) {f : α → JS ν β} {Q : World ν → Prop}
    (hf : ∀ a, Post (f a) Q) : Post (m >>= f) Q := by
  intro w b w2 h
  rw [bind_apply] at h
  rcases hm : m w with ⟨r, w1⟩
  rw [hm] at h
  cases r with
  | error e => cases h
  | ok a => exact hf a w1 b w2 h

theorem post_bind_liftE {α β : Type} (x : Except Fault α) {f : α → JS ν β}
    {Q : World ν → Prop} (hf : ∀ a, x = .ok a → Post (f a) Q) : Post (liftE x >>= f) Q := by
  intro w b w2 h
  rw [bind_apply] at h
  cases x with
  | error e => cases h
  | ok a => exact hf a rfl w b w2 h

/-- The last two writes of a card leave the badge with the status as its text
and `safety-badge` followed by the lower-cased status as its class name. -/
theorem post_badge (H : Host ν) (id s : String) :
    Post ((getElementById id : JS ν (Option String)) >>= fun statusBadge =>
        liftE (.ok (.str s) : Except Fault (JSVal ν)) >>= fun safetyStatus =>
        setTextContent statusBadge (textContentText H safetyStatus) >>= fun _ =>
        liftE (callToLowerCase H safetyStatus) >>= fun lower =>
        setClassName statusBadge ("safety-badge " ++ lower))
      (fun w2 => w2.dom id
        = some { className := "safety-badge " ++ H.toLowerCase s, content := .text s }) := by
  intro w a w2 h
  cases hd : w.dom id with
  | none => simp [getElementById_eq, hd, liftE, setTextContent] at h
  | some el =>
    simp [getElementById_eq, hd, liftE, setTextContent, setClassName, callToLowerCase,
      textContentText, World.setElement] at h
    rw [← h]
    simp

/-- A card rendered without a throw leaves its badge showing its status. -/
theorem post_locationCard (H : Host ν) (snap name : JSVal ν) (key s : String)
    (hname : getProp snap "location" = .ok name) (hkey : getLocationKey H name = .ok key)
    (hstatus : getProp snap "safety_status" = .ok (.str s)) :
    Post (locationCard H snap) (fun w2 => w2.dom ("status-" ++ key)
      = some { className := "safety-badge " ++ H.toLowerCase s, content := .text s }) := by
  unfold locationCard
  refine post_bind_liftE _ (fun name1 h1 => ?_)
  obtain rfl : name = name1 := by rw [hname] at h1; injection h1
  refine post_bind_liftE _ (fun key1 h2 => ?_)
  obtain rfl : key = key1 := by rw [hkey] at h2; injection h2
  refine post_bind_right _ (fun _ => ?_)
  refine post_bind_right _ (fun _ => ?_)
  refine post_bind_right _ (fun _ => ?_)
  refine post_bind_right _ (fun _ => ?_)
  refine post_bind_right _ (fun _ => ?_)
  refine post_bind_right _ (fun _ => ?_)
  refine post_bind_right _ (fun _ => ?_)
  refine post_bind_right _ (fun _ => ?_)
  refine post_bind_right _ (fun _ => ?_)
  rw [hstatus]
  exact post_badge H _ s

/-- The badge of one key is none of the card elements of another key. -/
theorem cardIds_ne_status (key key2 id : String) (hid : id ∈ cardIds key2) (hne : key2 ≠ key) :
    id ≠ "status-" ++ key := by
  simp only [cardIds, List.mem_cons, List.mem_singleton, List.not_mem_nil, or_false] at hid
  rcases hid with rfl | rfl | rfl | rfl <;> intro h <;>
    have h2 := congrArg String.data h <;>
    simp [String.data_append] at h2
  exact hne (String.ext h2)

/-- Cards of other keys leave the badge of `key` alone. -/
theorem forEach_locationCard_frame (H : Host ν) (post : List (JSVal ν)) (key : String)
    (hlast : ∀ p ∈ post, ∀ n, getProp p "location" = .ok n → getLocationKey H n ≠ .ok key)
    (w : World ν) :
    (forEach post (locationCard H) w).2.dom ("status-" ++ key) = w.dom ("status-" ++ key) := by
  have hk : Keeps (fun e => ∃ p ∈ post, CardEvent H p e) (forEach post (locationCard H)) :=
    keeps_forEach _ _ (fun p hp => (keeps_locationCard H p).mono (fun e he => ⟨p, hp, he⟩))
  obtain ⟨l, -, hP, -, hframe⟩ := hk w
  refine hframe _ (fun e he => ?_)
  obtain ⟨p, hp, n, key2, hn, hkey2, id, hid, htarget⟩ := hP e he
  rw [htarget]
  intro h
  have hne : key2 ≠ key := by
    rintro rfl
    exact hlast p hp n hn hkey2
  exact cardIds_ne_status key key2 id hid hne (Option.some.inj h)

/-! ## Supporting lemmas: the chart data -/

theorem mapE_of_forall_eq {α β : Type} (f : α → Except Fault β) (g : α → β) (xs : List α)
    (h : ∀ x ∈ xs, f x = .ok (g x)) : mapE f xs = .ok (xs.map g) := by
  induction xs with
  | nil => rfl
  | cons x xs ih =>
    simp [mapE, h x (List.mem_cons_self x xs),
      ih (fun y hy => h y (List.mem_cons_of_mem x hy))]

theorem getProp_member (v : JSVal ν) (k : String) (h1 : v ≠ .null) (h2 : v ≠ .undefined) :
    getProp v k = .ok (member v k) := by
  cases v <;> simp [getProp, member] at h1 h2 ⊢

/-- The dataset built from an entry whose points are all readable. -/
theorem dataset_of_points (field location : String) (points : List (JSVal ν))
    (h : ∀ p ∈ points, p ≠ .null ∧ p ≠ .undefined) :
    dataset field (location, .arr points) = .ok (pointsDataset field location points) := by
  have hm := mapE_of_forall_eq (fun d : JSVal ν => getProp d field) (fun p => member p field)
    points (fun p hp => getProp_member p field (h p hp).1 (h p hp).2)
  simp [dataset, asArray, hm, bind, Except.bind, pure, Except.pure, pointsDataset]

/-- The labels built from a first entry whose points are all readable. -/
theorem labels_of_points (H : Host ν) (location : String) (points : List (JSVal ν))
    (rest : List (String × JSVal ν)) (h : ∀ p ∈ points, p ≠ .null ∧ p ≠ .undefined) :
    labels H ((location, .arr points) :: rest)
      = .ok (points.map fun p => H.formatEventTime (member p "event_time")) := by
  have hm := mapE_of_forall_eq
    (fun d : JSVal ν => do
      let t ← getProp d "event_time"
      pure (H.formatEventTime t))
    (fun p => H.formatEventTime (member p "event_time")) points
    (fun p hp => by
      simp [getProp_member p "event_time" (h p hp).1 (h p hp).2, bind, Except.bind, pure,
        Except.pure])
  simp only [labels, asArray, bind, Except.bind] at hm ⊢
  exact hm

/-- The result of a history request that is answered with a `data` member. -/
theorem historyEntry_ok (H : Host ν) (net : Network ν) (location : String) (body d : JSVal ν)
    (hnet : net (historyUrl H location) = .response (some body))
    (hdata : getProp body "data" = .ok d) :
    historyEntry H net location = .ok (location, d) := by
  simp [historyEntry, hnet, json, hdata, bind, Except.bind, pure, Except.pure]

/-- The ice chart after a refresh, when it existed or its canvas exists. -/
theorem refreshIceChart_ok (lbls : List String) (ds : List (Dataset ν)) (w : World ν)
    (h : w.iceChart ≠ none ∨ w.dom "iceThicknessChart" ≠ none) :
    ∃ c, (refreshIceChart lbls ds w).1 = .ok () ∧
      (refreshIceChart lbls ds w).2.iceChart = some c ∧ c.labels = lbls ∧ c.datasets = ds ∧
      (refreshIceChart lbls ds w).2.tempChart = w.tempChart ∧
      (refreshIceChart lbls ds w).2.dom = w.dom := by
  unfold refreshIceChart
  cases hc : w.iceChart with
  | some c => exact ⟨_, rfl, rfl, rfl, rfl, rfl, rfl⟩
  | none =>
    dsimp only
    cases hd : w.dom "iceThicknessChart" with
    | none => simp [hc, hd] at h
    | some el => exact ⟨_, rfl, rfl, rfl, rfl, rfl, rfl⟩

/-- The temperature chart after a refresh, when it existed or its canvas exists. -/
theorem refreshTempChart_ok (lbls : List String) (ds : List (Dataset ν)) (w : World ν)
    (h : w.tempChart ≠ none ∨ w.dom "temperatureChart" ≠ none) :
    ∃ c, (refreshTempChart lbls ds w).1 = .ok () ∧
      (refreshTempChart lbls ds w).2.tempChart = some c ∧ c.labels = lbls ∧ c.datasets = ds ∧
      (refreshTempChart lbls ds w).2.iceChart = w.iceChart := by
  unfold refreshTempChart
  cases hc : w.tempChart with
  | some c => exact ⟨_, rfl, rfl, rfl, rfl, rfl⟩
  | none =>
    dsimp only
    cases hd : w.dom "temperatureChart" with
    | none => simp [hc, hd] at h
    | some el => exact ⟨_, rfl, rfl, rfl, rfl, rfl⟩

/-! ## Claims about `getLocationKey` -/

/-- C1, as stated, fails: the lower-cased name "dow's lake" contains "dow", and
the key returned for "Dow's Lake" is "dows", not "dowslake". -/
theorem getLocationKey_dowslake_refuted :
    "Dow's Lake" ≠ "" ∧ includes (asciiHost.toLowerCase "Dow's Lake") "dow" = true ∧
    getLocationKey asciiHost (.str "Dow's Lake") = .ok "dows" ∧
    getLocationKey asciiHost (.str "Dow's Lake") ≠ .ok "dowslake" := by
  decide

/-- C1 (amended): for every non-empty location name the key is chosen by ordered
substring tests on the lower-cased name: "dows" if it contains "dow", otherwise
"fifth" if it contains "fifth", otherwise "nac" if it contains "nac". In
particular the three canonical display names resolve to "dows", "fifth" and
"nac". -/
theorem getLocationKey_canonical (H : Host ν) (name : String) (hne : name ≠ "") :
    (includes (H.toLowerCase name) "dow" = true →
      getLocationKey H (.str name) = .ok "dows") ∧
    (includes (H.toLowerCase name) "dow" = false →
      includes (H.toLowerCase name) "fifth" = true →
      getLocationKey H (.str name) = .ok "fifth") ∧
    (includes (H.toLowerCase name) "dow" = false →
      includes (H.toLowerCase name) "fifth" = false →
      includes (H.toLowerCase name) "nac" = true →
      getLocationKey H (.str name) = .ok "nac") ∧
    getLocationKey H (.str "Dow's Lake") = .ok "dows" ∧
    getLocationKey H (.str "Fifth Avenue") = .ok "fifth" ∧
    getLocationKey H (.str "NAC") = .ok "nac" := by
  rw [getLocationKey_str H name hne]
  refine ⟨fun h => by simp [h], fun h1 h2 => by simp [h1, h2],
    fun h1 h2 h3 => by simp [h1, h2, h3], ?_, ?_, ?_⟩
  · exact (getLocationKey_ascii H _ (by decide)).trans (by decide)
  · exact (getLocationKey_ascii H _ (by decide)).trans (by decide)
  · exact (getLocationKey_ascii H _ (by decide)).trans (by decide)

/-- C1 (amended), at the name "Fifth Avenue". -/
theorem getLocationKey_canonical_witness :
    "Fifth Avenue" ≠ "" ∧ includes (asciiHost.toLowerCase "Fifth Avenue") "dow" = false ∧
    includes (asciiHost.toLowerCase "Fifth Avenue") "fifth" = true ∧
    getLocationKey asciiHost (.str "Fifth Avenue") = .ok "fifth" :=
  ⟨by decide, by decide, by decide,
    (getLocationKey_canonical asciiHost "Fifth Avenue" (by decide)).2.1 (by decide) (by decide)⟩

/-- C2: for every non-empty location name whose lower-cased form contains none of
"dow", "fifth", "nac", the key is the lower-cased name with every character
outside a..z removed and the others kept in order; so it consists of lower-case
letters only, and "Somewhere Else" gives "somewhereelse". -/
theorem getLocationKey_fallback (H : Host ν) (name : String) (hne : name ≠ "")
    (hdow : includes (H.toLowerCase name) "dow" = false)
    (hfifth : includes (H.toLowerCase name) "fifth" = false)
    (hnac : includes (H.toLowerCase name) "nac" = false) :
    getLocationKey H (.str name)
      = .ok (String.mk ((H.toLowerCase name).data.filter fun c => decide ('a' ≤ c ∧ c ≤ 'z'))) ∧
    (∀ key, getLocationKey H (.str name) = .ok key →
      (∀ c ∈ key.data, 'a' ≤ c ∧ c ≤ 'z') ∧ key.data.Sublist (H.toLowerCase name).data) ∧
    getLocationKey H (.str "Somewhere Else") = .ok "somewhereelse" := by
  have hkey : getLocationKey H (.str name) = .ok (stripNonLower (H.toLowerCase name)) := by
    rw [getLocationKey_str H name hne]; simp [hdow, hfifth, hnac]
  have hstrip : stripNonLower (H.toLowerCase name)
      = String.mk ((H.toLowerCase name).data.filter fun c => decide ('a' ≤ c ∧ c ≤ 'z')) := by
    unfold stripNonLower
    congr 1
    apply List.filter_congr
    intro c _
    simp [isLowerAZ]
  refine ⟨by rw [hkey, hstrip], ?_, ?_⟩
  · intro key hk
    rw [hkey] at hk
    have hk2 : stripNonLower (H.toLowerCase name) = key := by injection hk
    subst hk2
    refine ⟨?_, List.filter_sublist _⟩
    intro c hc
    have := (List.mem_filter.mp hc).2
    simpa [isLowerAZ] using this
  · exact (getLocationKey_ascii H _ (by decide)).trans (by decide)

/-- C2, at the name "Rideau Locks 1-8". -/
theorem getLocationKey_fallback_witness :
    getLocationKey asciiHost (.str "Rideau Locks 1-8") = .ok "rideaulocks" :=
  (getLocationKey_fallback asciiHost "Rideau Locks 1-8" (by decide) (by decide) (by decide)
    (by decide)).1.trans (by decide)

/-- C3: rule precedence is fixed and independent of position. A name whose
lower-cased form contains "dow" gets the key of "dow", whatever else it
contains; a name containing "fifth" but not "dow" gets the key of "fifth", also
when "nac" comes first. So "NAC near Dow" resolves to the dow key, "nac fifth"
to the fifth key, and two different names can collide on one key. -/
theorem getLocationKey_precedence (H : Host ν) (name : String) :
    (includes (H.toLowerCase name) "dow" = true →
      getLocationKey H (.str name) = getLocationKey H (.str "dow")) ∧
    (includes (H.toLowerCase name) "dow" = false →
      includes (H.toLowerCase name) "fifth" = true →
      getLocationKey H (.str name) = getLocationKey H (.str "fifth")) ∧
    getLocationKey H (.str "NAC near Dow") = getLocationKey H (.str "dow") ∧
    getLocationKey H (.str "nac fifth") = getLocationKey H (.str "fifth") ∧
    ("Dow's Lake" ≠ "NAC near Dow" ∧
      getLocationKey H (.str "Dow's Lake") = getLocationKey H (.str "NAC near Dow")) := by
  have hd : getLocationKey H (.str "dow") = .ok "dows" :=
    (getLocationKey_ascii H _ (by decide)).trans (by decide)
  have hf : getLocationKey H (.str "fifth") = .ok "fifth" :=
    (getLocationKey_ascii H _ (by decide)).trans (by decide)
  refine ⟨?_, ?_, ?_, ?_, by decide, ?_⟩
  · intro h
    rw [hd, getLocationKey_str H name (ne_empty_of_includes H name "dow" (by decide) h)]
    simp [h]
  · intro h1 h2
    rw [hf, getLocationKey_str H name (ne_empty_of_includes H name "fifth" (by decide) h2)]
    simp [h1, h2]
  · rw [hd]; exact (getLocationKey_ascii H _ (by decide)).trans (by decide)
  · rw [hf]; exact (getLocationKey_ascii H _ (by decide)).trans (by decide)
  · rw [getLocationKey_ascii H "Dow's Lake" (by decide),
      getLocationKey_ascii H "NAC near Dow" (by decide)]
    decide

/-- C3, at the name "Fifth Avenue near the NAC and Dow's Lake". -/
theorem getLocationKey_precedence_witness :
    getLocationKey asciiHost (.str "Fifth Avenue near the NAC and Dow's Lake")
      = getLocationKey asciiHost (.str "dow") :=
  (getLocationKey_precedence asciiHost "Fifth Avenue near the NAC and Dow's Lake").1 (by decide)

/-! ## Claims about failures of the requests -/

/-- C5: all-or-nothing chart refresh. For every prior chart state, when a history
request is rejected (in particular when exactly one of the three is, the other
two succeeding), `updateCharts` completes normally, leaves `iceChart`,
`tempChart` and the page exactly as they were (same objects, no chart created,
no redraw), and its only effects are the three requests and one `console.error`;
`showError` is not called. -/
theorem updateCharts_all_or_nothing (H : Host ν) (net : Network ν) (w : World ν)
    (h : ∃ location ∈ locations, net (historyUrl H location) = .rejected) :
    (updateCharts H net w).1 = .ok () ∧
    (updateCharts H net w).2.iceChart = w.iceChart ∧
    (updateCharts H net w).2.tempChart = w.tempChart ∧
    (updateCharts H net w).2.chartsConstructed = w.chartsConstructed ∧
    (updateCharts H net w).2.dom = w.dom ∧
    (updateCharts H net w).2.trace = w.trace ++
      [.fetch (historyUrl H "dowslake"), .fetch (historyUrl H "fifthave"),
       .fetch (historyUrl H "nac"), .consoleError "Error updating charts:"] := by
  rw [updateCharts_rejected H net w h]
  exact ⟨rfl, rfl, rfl, rfl, rfl, rfl⟩

/-- C6: when the snapshot request is rejected, `updateDashboard` completes
normally, changes no element of the page and neither chart, and its only effects
are that one request, the `console.error` of the handler and one call of
`showError`: no status request and no history request is issued. -/
theorem updateDashboard_transport_failure (H : Host ν) (net : Network ν) (w : World ν)
    (h : net (latestUrl H) = .rejected) :
    (updateDashboard H net w).1 = .ok () ∧
    (updateDashboard H net w).2.dom = w.dom ∧
    (updateDashboard H net w).2.iceChart = w.iceChart ∧
    (updateDashboard H net w).2.tempChart = w.tempChart ∧
    (updateDashboard H net w).2.trace = w.trace ++
      [.fetch (latestUrl H), .consoleError "Error updating dashboard:",
       .showErrorCalled "Failed to fetch latest data. Retrying...",
       .consoleError "Failed to fetch latest data. Retrying..."] := by
  rw [updateDashboard_rejected H net w h]
  exact ⟨rfl, rfl, rfl, rfl, rfl⟩

/-- C5, with both charts present and the Fifth Avenue request rejected. -/
theorem updateCharts_all_or_nothing_witness :
    (updateCharts asciiHost fifthDownNet chartedPage).1 = .ok () ∧
    (updateCharts asciiHost fifthDownNet chartedPage).2.iceChart = chartedPage.iceChart ∧
    (updateCharts asciiHost fifthDownNet chartedPage).2.tempChart = chartedPage.tempChart :=
  have h := updateCharts_all_or_nothing asciiHost fifthDownNet chartedPage
    ⟨"fifthave", by decide, rfl⟩
  ⟨h.1, h.2.1, h.2.2.1⟩

/-- C6, on a network that rejects every request. -/
theorem updateDashboard_transport_failure_witness :
    (updateDashboard asciiHost (networkOf []) (pageWith pageIds)).1 = .ok () ∧
    (updateDashboard asciiHost (networkOf []) (pageWith pageIds)).2.trace =
      [.fetch "http://localhost:3000/api/latest", .consoleError "Error updating dashboard:",
       .showErrorCalled "Failed to fetch latest data. Retrying...",
       .consoleError "Failed to fetch latest data. Retrying..."] :=
  have h := updateDashboard_transport_failure asciiHost (networkOf []) (pageWith pageIds) rfl
  ⟨h.1, h.2.2.2.2⟩

/-! ## Claims about the schedule -/

/-- C8: `initDashboard` runs one refresh cycle and then registers one repeating
timer for `updateDashboard` with period 30000 ms, whatever the cycle does: for
every network, payload and page `updateDashboard` completes normally (never
rejects), so `initDashboard` completes normally too, and its effects are the
start log, the events of that one cycle (none of which registers or clears a
timer), the one `setInterval(updateDashboard, 30000)` and the end log. -/
theorem initDashboard_one_cycle_one_timer (H : Host ν) (net : Network ν) (w : World ν) :
    (∀ w0, (updateDashboard H net w0).1 = .ok ()) ∧
    (initDashboard H net w).1 = .ok () ∧
    REFRESH_INTERVAL = 30000 ∧
    ∃ cycle,
      (updateDashboard H net
        { w with trace := w.trace ++ [.consoleLog "🚀 Initializing Rideau Canal Dashboard..."] }).2.trace
        = w.trace ++ [.consoleLog "🚀 Initializing Rideau Canal Dashboard..."] ++ cycle ∧
      (initDashboard H net w).2.trace
        = w.trace ++ [.consoleLog "🚀 Initializing Rideau Canal Dashboard..."] ++ cycle
            ++ [.setInterval .updateDashboard 30000,
                .consoleLog "✅ Dashboard initialized successfully"] ∧
      ∀ e ∈ cycle, e.isTimer = false := by
  refine ⟨updateDashboard_completes H net, ?_, rfl, ?_⟩
  · rw [initDashboard_world]
  · obtain ⟨cycle, ht, hP, -, -⟩ := keeps_updateDashboard H net
      { w with trace := w.trace ++ [.consoleLog "🚀 Initializing Rideau Canal Dashboard..."] }
    refine ⟨cycle, ht, ?_, fun e he => (hP e he).not_timer⟩
    rw [initDashboard_world]
    simp only [ht]
    rfl

/-! ## Claims about soft failures and rendering faults -/

/-- C7: soft failure is a silent no-op for the cards. When `/api/latest` returns a
parseable payload whose `success` member is falsy (whatever `data` holds), the
snapshot block completes normally with the request as its only effect, the cycle
goes on with the `/api/status` request, every later write targets
`overallStatus` only, every other element is unchanged, and `showError` is not
called unless the status block itself throws. The outcome differs from the
hard-failure outcome (the block throws, the cycle ends in `showError` without a
status request) and from the success outcome (the block throws or writes). -/
theorem updateDashboard_soft_failure (H : Host ν) (net : Network ν) (w : World ν)
    (payload success : JSVal ν) (hnet : net (latestUrl H) = .response (some payload))
    (hsucc : getProp payload "success" = .ok success) (hfalsy : truthy H success = false) :
    fetchLatest H net w = (.ok (), { w with trace := w.trace ++ [.fetch (latestUrl H)] }) ∧
    (∃ rest, (updateDashboard H net w).2.trace
        = w.trace ++ [.fetch (latestUrl H), .fetch (statusUrl H)] ++ rest ∧
      ∀ e ∈ rest, e.target = none ∨ e.target = some "overallStatus") ∧
    (∀ id, id ≠ "overallStatus" → (updateDashboard H net w).2.dom id = w.dom id) ∧
    ((fetchStatus H net { w with trace := w.trace ++ [.fetch (latestUrl H)] }).1 = .ok () →
      ∃ l, (updateDashboard H net w).2.trace = w.trace ++ l ∧
        ∀ msg, Event.showErrorCalled msg ∉ l) ∧
    (∀ net2 : Network ν, net2 (latestUrl H) = .rejected →
      fetchLatest H net2 w
        = (.error .networkError, { w with trace := w.trace ++ [.fetch (latestUrl H)] }) ∧
      updateDashboard H net2 w ≠ updateDashboard H net w) ∧
    (∀ (net3 : Network ν) (payload3 success3 : JSVal ν),
      net3 (latestUrl H) = .response (some payload3) →
      getProp payload3 "success" = .ok success3 → truthy H success3 = true →
      fetchLatest H net3 w ≠ fetchLatest H net w) := by
  have hsoft := fetchLatest_soft H net w payload success hnet hsucc hfalsy
  have hcycle := updateDashboard_of_fetchLatest_ok H net w _ hsoft
  obtain ⟨rest, hrest, hP, -, hframe⟩ := step_status_and_charts H net
    { w with trace := w.trace ++ [.fetch (latestUrl H)] }
  have htrace : (updateDashboard H net w).2.trace
      = w.trace ++ [.fetch (latestUrl H), .fetch (statusUrl H)] ++ rest := by
    rw [hcycle, hrest]; simp
  refine ⟨hsoft, ⟨rest, htrace, hP⟩, ?_, ?_, ?_, ?_⟩
  · intro id hid
    rw [hcycle]
    refine hframe id (fun e he => ?_)
    rcases hP e he with h | h
    · rw [h]; simp
    · rw [h]; simpa using hid.symm
  · intro hstatus
    obtain ⟨l, hl, hno⟩ := no_showError_of_status_ok H net _ hstatus
    refine ⟨.fetch (latestUrl H) :: l, ?_, ?_⟩
    · rw [hcycle, hl]; simp
    · intro msg hmem
      rcases List.mem_cons.mp hmem with h | h
      · cases h
      · exact hno msg h
  · intro net2 hrej
    refine ⟨fetchLatest_rejected H net2 w hrej, fun heq => ?_⟩
    have h2 := congrArg (fun r => r.2.trace) heq
    simp only [updateDashboard_rejected H net2 w hrej, htrace] at h2
    simp at h2
  · intro net3 payload3 success3 hnet3 hsucc3 htruthy3 heq
    obtain ⟨data, hdata⟩ := getProp_ok_of_ok payload3 success3 "success" "data" hsucc3
    rw [fetchLatest_success H net3 w payload3 success3 data hnet3 hsucc3 htruthy3 hdata,
      hsoft] at heq
    exact render_ok_trace H data _ _ heq rfl

/-- C7, on a network whose snapshot answer is `{success: false, data: null}` and
whose status answer is `{success: false}`. -/
theorem updateDashboard_soft_failure_witness :
    fetchLatest asciiHost softNet (pageWith pageIds)
      = (.ok (), { pageWith pageIds with trace := [.fetch "http://localhost:3000/api/latest"] }) ∧
    ((updateDashboard asciiHost softNet (pageWith pageIds)).2.dom "status-dows" = some blank) :=
  have h := updateDashboard_soft_failure asciiHost softNet (pageWith pageIds)
    (.obj [("success", .bool false), ("data", .null)]) (.bool false) rfl rfl rfl
  ⟨h.1, (h.2.2.1 "status-dows" (by decide)).trans (by decide)⟩

/-- C10, as stated, fails: with `success` true and the element `ice-dows` missing
from the page, the promise returned by `updateDashboard` does not reject; the
fault is caught and ends in the `showError` call. -/
theorem updateDashboard_render_fault_refuted :
    (pageWith cardlessIds).dom "ice-dows" = none ∧
    getLocationKey asciiHost (.str "Dow's Lake") = .ok "dows" ∧
    (updateDashboard asciiHost oneCardNet (pageWith cardlessIds)).1 = .ok () ∧
    (updateDashboard asciiHost oneCardNet (pageWith cardlessIds)).2.trace =
      [.fetch "http://localhost:3000/api/latest", .consoleError "Error updating dashboard:",
       .showErrorCalled "Failed to fetch latest data. Retrying...",
       .consoleError "Failed to fetch latest data. Retrying..."] := by
  decide

/-- C10 (amended): a rendering failure is caught inside the cycle. When
`/api/latest` succeeds with a truthy `success` and some snapshot of its `data`
array resolves to a key one of whose card elements is missing from the page,
`updateDashboard` completes normally (its promise resolves); its effects are the
snapshot request, the page writes made before the fault, the `console.error` of
its handler and one call of `showError`. No status or history request follows. -/
theorem updateDashboard_catches_render_fault (H : Host ν) (net : Network ν) (w : World ν)
    (payload success : JSVal ν) (items : List (JSVal ν)) (snap name : JSVal ν) (key id : String)
    (hnet : net (latestUrl H) = .response (some payload))
    (hsucc : getProp payload "success" = .ok success) (htruthy : truthy H success = true)
    (hdata : getProp payload "data" = .ok (.arr items)) (hsnap : snap ∈ items)
    (hname : getProp snap "location" = .ok name) (hkey : getLocationKey H name = .ok key)
    (hid : id ∈ cardIds key) (hmissing : w.dom id = none) :
    (updateDashboard H net w).1 = .ok () ∧
    ∃ writes, (updateDashboard H net w).2.trace
        = w.trace ++ [.fetch (latestUrl H)] ++ writes ++
          [.consoleError "Error updating dashboard:",
           .showErrorCalled "Failed to fetch latest data. Retrying...",
           .consoleError "Failed to fetch latest data. Retrying..."] ∧
      ∀ e ∈ writes, e.target ≠ none := by
  refine ⟨updateDashboard_completes H net w, ?_⟩
  have hlatest := fetchLatest_success H net w payload success _ hnet hsucc htruthy hdata
  have hfault : FaultsWithout id
      (updateLocationCards H (.arr items) >>= fun _ => updateLastUpdateTime H) := by
    refine faults_bind_left _ ?_
    unfold updateLocationCards
    exact faults_bind_liftE _ (fun items1 h1 => by
      obtain rfl : items = items1 := by simp [asArray] at h1; exact h1
      exact faults_forEach_locationCard H items snap name key id hsnap hname hkey hid)
  obtain ⟨e, he⟩ := hfault { w with trace := w.trace ++ [.fetch (latestUrl H)] } hmissing
  obtain ⟨writes, hw, hP, -, -⟩ := keeps_render H (.arr items)
    { w with trace := w.trace ++ [.fetch (latestUrl H)] }
  rcases hr : (updateLocationCards H (.arr items) >>= fun _ => updateLastUpdateTime H)
    { w with trace := w.trace ++ [.fetch (latestUrl H)] } with ⟨r, w2⟩
  rw [hr] at he hw
  simp only at he hw
  subst he
  rw [hr] at hlatest
  refine ⟨writes, ?_, hP⟩
  rw [updateDashboard_of_fetchLatest_error H net w w2 e hlatest]
  simp [hw]

/-- C10 (amended), on a page without `ice-dows`. -/
theorem updateDashboard_catches_render_fault_witness :
    (pageWith cardlessIds).dom "ice-dows" = none ∧
    (updateDashboard asciiHost oneCardNet (pageWith cardlessIds)).1 = .ok () :=
  ⟨by decide,
    (updateDashboard_catches_render_fault asciiHost oneCardNet (pageWith cardlessIds)
      (.obj [("success", .bool true), ("data", .arr [snapshot "Dow's Lake" 312 (-53) 21 "Safe"])])
      (.bool true) [snapshot "Dow's Lake" 312 (-53) 21 "Safe"]
      (snapshot "Dow's Lake" 312 (-53) 21 "Safe") (.str "Dow's Lake") "dows" "ice-dows"
      rfl rfl rfl rfl (List.mem_singleton.mpr rfl) rfl (by decide) (by decide) (by decide)).1⟩

/-! ## Claims about the safety badge -/

/-- C4, as stated, fails. For the status "Thin Ice" the class name of the badge
is "safety-badge thin ice": it is not the lower-cased status, and the lower-cased
status is not one of its classes either. And when two snapshots of one response
resolve to the same key, the badge shows the status of the later one, not the
status "Safe" carried by the first. -/
theorem updateLocationCards_badge_refuted :
    ((updateLocationCards asciiHost thinIceData (pageWith pageIds)).1 = .ok () ∧
      (updateLocationCards asciiHost thinIceData (pageWith pageIds)).2.dom "status-nac"
        = some { className := "safety-badge thin ice", content := .text "Thin Ice" } ∧
      "safety-badge thin ice" ≠ asciiHost.toLowerCase "Thin Ice" ∧
      asciiHost.toLowerCase "Thin Ice" ∉ classTokens "safety-badge thin ice") ∧
    ((updateLocationCards asciiHost collidingData (pageWith pageIds)).1 = .ok () ∧
      (updateLocationCards asciiHost collidingData (pageWith pageIds)).2.dom "status-dows"
        = some { className := "safety-badge unsafe", content := .text "Unsafe" }) := by
  decide

/-- C4 (amended): for every safety-status string `s` and every snapshot carrying
it, when `updateLocationCards` completes normally (the binding elements exist)
and no later snapshot of the same response resolves to the same key, the badge
`status-{key}` has text `s` unchanged and class name `safety-badge` followed by a
blank and the lower-cased `s`. -/
theorem updateLocationCards_badge (H : Host ν) (w : World ν) (pre post : List (JSVal ν))
    (snap name : JSVal ν) (key s : String)
    (hname : getProp snap "location" = .ok name) (hkey : getLocationKey H name = .ok key)
    (hstatus : getProp snap "safety_status" = .ok (.str s))
    (hlast : ∀ p ∈ post, ∀ n, getProp p "location" = .ok n → getLocationKey H n ≠ .ok key)
    (hrun : (updateLocationCards H (.arr (pre ++ snap :: post)) w).1 = .ok ()) :
    (updateLocationCards H (.arr (pre ++ snap :: post)) w).2.dom ("status-" ++ key)
      = some { className := "safety-badge " ++ H.toLowerCase s, content := .text s } := by
  have hunfold : updateLocationCards H (.arr (pre ++ snap :: post)) w
      = (forEach pre (locationCard H) >>= fun _ =>
          locationCard H snap >>= fun _ => forEach post (locationCard H)) w := by
    simp only [updateLocationCards, asArray, liftE, bind_apply]
    rw [forEach_append]
    rfl
  rw [hunfold] at hrun ⊢
  rw [bind_apply] at hrun ⊢
  rcases h1 : forEach pre (locationCard H) w with ⟨r1, w1⟩
  simp only [h1] at hrun ⊢
  cases r1 with
  | error e => cases hrun
  | ok u1 =>
    simp only [bind_apply] at hrun ⊢
    rcases h2 : locationCard H snap w1 with ⟨r2, w2⟩
    simp only [h2] at hrun ⊢
    cases r2 with
    | error e => cases hrun
    | ok u2 =>
      simp only
      rw [forEach_locationCard_frame H post key hlast w2]
      exact post_locationCard H snap name key s hname hkey hstatus w1 u2 w2 h2

/-- C4 (amended), for the first of two snapshots with different keys. -/
theorem updateLocationCards_badge_witness :
    (updateLocationCards asciiHost
        (.arr ([] ++ snapshot "Dow's Lake" 312 (-53) 21 "Safe" ::
          [snapshot "NAC" 190 (-12) 50 "Unsafe"])) (pageWith pageIds)).2.dom "status-dows"
      = some { className := "safety-badge safe", content := .text "Safe" } :=
  updateLocationCards_badge asciiHost (pageWith pageIds) []
    [snapshot "NAC" 190 (-12) 50 "Unsafe"] (snapshot "Dow's Lake" 312 (-53) 21 "Safe")
    (.str "Dow's Lake") "dows" "Safe" rfl (by decide) rfl
    (by
      intro p hp n hn
      obtain rfl := List.mem_singleton.mp hp
      obtain rfl : JSVal.str "NAC" = n := by
        have : getProp (snapshot "NAC" 190 (-12) 50 "Unsafe") "location"
            = .ok (JSVal.str "NAC") := rfl
        rw [this] at hn
        injection hn
      decide)
    (by decide)

/-! ## Claims about the chart data -/

/-- C9: after a successful history fan-out in which the three locations return the
point sequences `pd`, `pf`, `pn`, each chart has exactly three datasets, in the
order dowslake, fifthave, nac, labelled with the configured display names; the
dataset of a location holds, in order, the `avg_ice_thickness` (ice chart) or
`avg_surface_temperature` (temperature chart) members of its points, so it is as
long as that location's sequence; and both charts share one label sequence, built
from the first location's points, whose length is the length of `pd` whatever
the other lengths are. -/
theorem updateCharts_datasets (H : Host ν) (net : Network ν) (w : World ν)
    (bd bf bn : JSVal ν) (pd pf pn : List (JSVal ν))
    (hd : net (historyUrl H "dowslake") = .response (some bd))
    (hf : net (historyUrl H "fifthave") = .response (some bf))
    (hn : net (historyUrl H "nac") = .response (some bn))
    (hpd : getProp bd "data" = .ok (.arr pd)) (hpf : getProp bf "data" = .ok (.arr pf))
    (hpn : getProp bn "data" = .ok (.arr pn))
    (hpoints : ∀ p ∈ pd ++ pf ++ pn, p ≠ .null ∧ p ≠ .undefined)
    (hice : w.iceChart ≠ none ∨ w.dom "iceThicknessChart" ≠ none)
    (htemp : w.tempChart ≠ none ∨ w.dom "temperatureChart" ≠ none) :
    ∃ ice temp,
      (updateCharts H net w).2.iceChart = some ice ∧
      (updateCharts H net w).2.tempChart = some temp ∧
      ice.datasets.map (fun d => d.label) = ["Dow's Lake", "Fifth Avenue", "NAC"] ∧
      temp.datasets.map (fun d => d.label) = ["Dow's Lake", "Fifth Avenue", "NAC"] ∧
      ice.datasets.map (fun d => d.data)
        = [pd.map fun p => member p "avg_ice_thickness",
           pf.map fun p => member p "avg_ice_thickness",
           pn.map fun p => member p "avg_ice_thickness"] ∧
      temp.datasets.map (fun d => d.data)
        = [pd.map fun p => member p "avg_surface_temperature",
           pf.map fun p => member p "avg_surface_temperature",
           pn.map fun p => member p "avg_surface_temperature"] ∧
      ice.datasets.map (fun d => d.data.length) = [pd.length, pf.length, pn.length] ∧
      temp.datasets.map (fun d => d.data.length) = [pd.length, pf.length, pn.length] ∧
      ice.labels = pd.map (fun p => H.formatEventTime (member p "event_time")) ∧
      temp.labels = ice.labels ∧
      ice.labels.length = pd.length := by
  have hpd2 : ∀ p ∈ pd, p ≠ .null ∧ p ≠ .undefined := fun p hp => hpoints p (by simp [hp])
  have hpf2 : ∀ p ∈ pf, p ≠ .null ∧ p ≠ .undefined := fun p hp => hpoints p (by simp [hp])
  have hpn2 : ∀ p ∈ pn, p ≠ .null ∧ p ≠ .undefined := fun p hp => hpoints p (by simp [hp])
  have hhist : mapE (historyEntry H net) locations
      = .ok [("dowslake", .arr pd), ("fifthave", .arr pf), ("nac", .arr pn)] := by
    simp [locations, mapE, historyEntry_ok H net _ _ _ hd hpd, historyEntry_ok H net _ _ _ hf hpf,
      historyEntry_ok H net _ _ _ hn hpn]
  have hds : ∀ field, mapE (dataset field)
      [("dowslake", JSVal.arr pd), ("fifthave", .arr pf), ("nac", .arr pn)]
      = .ok [pointsDataset field "dowslake" pd, pointsDataset field "fifthave" pf,
          pointsDataset field "nac" pn] := fun field => by
    simp [mapE, dataset_of_points field _ _ hpd2, dataset_of_points field _ _ hpf2,
      dataset_of_points field _ _ hpn2]
  have hlab := labels_of_points H "dowslake" pd
    [("fifthave", .arr pf), ("nac", .arr pn)] hpd2
  obtain ⟨ice, hi1, hi2, hi3, hi4, hi5, hi6⟩ := refreshIceChart_ok
    (pd.map fun p => H.formatEventTime (member p "event_time"))
    [pointsDataset "avg_ice_thickness" "dowslake" pd,
     pointsDataset "avg_ice_thickness" "fifthave" pf,
     pointsDataset "avg_ice_thickness" "nac" pn]
    { w with trace := w.trace ++ [.fetch (historyUrl H "dowslake"),
        .fetch (historyUrl H "fifthave"), .fetch (historyUrl H "nac")] } hice
  rcases hri : refreshIceChart
    (pd.map fun p => H.formatEventTime (member p "event_time"))
    [pointsDataset "avg_ice_thickness" "dowslake" pd,
     pointsDataset "avg_ice_thickness" "fifthave" pf,
     pointsDataset "avg_ice_thickness" "nac" pn]
    { w with trace := w.trace ++ [.fetch (historyUrl H "dowslake"),
        .fetch (historyUrl H "fifthave"), .fetch (historyUrl H "nac")] } with ⟨r1, w1⟩
  rw [hri] at hi1 hi2 hi5 hi6
  simp only at hi1 hi2 hi5 hi6
  subst hi1
  obtain ⟨temp, ht1, ht2, ht3, ht4, ht5⟩ := refreshTempChart_ok
    (pd.map fun p => H.formatEventTime (member p "event_time"))
    [pointsDataset "avg_surface_temperature" "dowslake" pd,
     pointsDataset "avg_surface_temperature" "fifthave" pf,
     pointsDataset "avg_surface_temperature" "nac" pn]
    w1 (by rw [hi5, hi6]; exact htemp)
  rcases hrt : refreshTempChart
    (pd.map fun p => H.formatEventTime (member p "event_time"))
    [pointsDataset "avg_surface_temperature" "dowslake" pd,
     pointsDataset "avg_surface_temperature" "fifthave" pf,
     pointsDataset "avg_surface_temperature" "nac" pn] w1 with ⟨r2, w2⟩
  rw [hrt] at ht1 ht2 ht5
  simp only at ht1 ht2 ht5
  subst ht1
  have hfinal : updateCharts H net w = (.ok (), w2) := by
    simp [updateCharts, tryCatch, historicalData_world, hhist, liftE, iceDatasets, tempDatasets,
      hds, hlab, hri, hrt]
  refine ⟨ice, temp, ?_, ?_, ?_, ?_, ?_, ?_, ?_, ?_, ?_, ?_, ?_⟩
  · rw [hfinal]; simp only; rw [ht5, hi2]
  · rw [hfinal]; exact ht2
  · rw [hi4]; simp [pointsDataset, displayNames, List.lookup]
  · rw [ht4]; simp [pointsDataset, displayNames, List.lookup]
  · rw [hi4]; rfl
  · rw [ht4]; rfl
  · rw [hi4]; simp [pointsDataset]
  · rw [ht4]; simp [pointsDataset]
  · exact hi3
  · rw [ht3, hi3]
  · rw [hi3]; simp

/-- C9, with series of lengths 2, 1 and 0 on a page that has both canvases. -/
theorem updateCharts_datasets_witness :
    ∃ ice temp,
      (updateCharts asciiHost fullNet (pageWith pageIds)).2.iceChart = some ice ∧
      (updateCharts asciiHost fullNet (pageWith pageIds)).2.tempChart = some temp ∧
      ice.datasets.map (fun d => d.data.length) = [2, 1, 0] ∧
      temp.datasets.map (fun d => d.data.length) = [2, 1, 0] ∧
      ice.labels.length = 2 ∧ temp.labels = ice.labels := by
  obtain ⟨ice, temp, h1, h2, -, -, -, -, h7, h8, -, h10, h11⟩ :=
    updateCharts_datasets asciiHost fullNet (pageWith pageIds)
      (.obj [("success", .bool true), ("data", .arr [point "t1" 300 (-50), point "t2" 310 (-51)])])
      (.obj [("success", .bool true), ("data", .arr [point "t1" 280 (-40)])])
      (.obj [("success", .bool true), ("data", .arr [])])
      [point "t1" 300 (-50), point "t2" 310 (-51)] [point "t1" 280 (-40)] []
      rfl rfl rfl rfl rfl rfl
      (by
        intro p hp
        simp only [List.cons_append, List.nil_append, List.append_nil, List.mem_cons,
          List.mem_singleton, List.not_mem_nil, or_false] at hp
        rcases hp with rfl | rfl | rfl <;> exact ⟨by simp [point], by simp [point]⟩)
      (Or.inr (by decide)) (Or.inr (by decide))
  exact ⟨ice, temp, h1, h2, h7, h8, h11, h10⟩

end RideauCanal
